import Mathlib

/-!
# Verification of the RelaySMS-Publisher payload decoder, adapter registry,
# adapter IPC channel and publication orchestrator

Shallow embedding of the Python sources of `smswithoutborders/RelaySMS-Publisher`:
* `src/content_parser.py` (binary payload decoder and content extractors),
* `src/platforms/adapter_manager.py` (adapter registry and lifecycle),
* `src/platforms/adapter_ipc_handler.py` (JSON-over-pipe adapter invocation),
* `src/grpc_publisher_service.py` (the `PublishContent` orchestration).

Python byte strings are modelled as `List Byte` with `Byte := Fin 256`;
Python's `(value, error)` return pairs are modelled as `Except String`
values (`(result, None)` becomes `.ok result`, `(None, e)` becomes
`.error e`, and an exception raised out of a function also becomes
`.error e` at the first enclosing `try`); Python dictionaries are
modelled as insertion-ordered association lists.
-/

namespace RelaySMS

/-- A byte, the element type of Python `bytes` values. -/
abbrev Byte := Fin 256

/-- A value stored in the parse-result dictionary of `parse_payload`:
an `int` (from `struct.unpack` of a numeric format), a `bytes` value
(from an `Ns` format with no character decoding), or a `str`
(a `bytes` value after `.decode(...)`, or the `"version"` tag). -/
inductive PVal where
  | int (n : Int)
  | bytes (b : List Byte)
  | str (s : String)
deriving DecidableEq, Repr

/-- Insertion-ordered association-list model of a Python `dict`
with string keys. -/
abbrev Dict := List (String × PVal)

/-- `d[key]` lookup (first matching key). -/
def dlookup : Dict → String → Option PVal
  | [], _ => none
  | (k, v) :: rest, key => if k = key then some v else dlookup rest key

/-- `d[key] = v` assignment: overwrites in place if the key exists
(Python dicts keep the original insertion position), otherwise appends
at the end. -/
def dinsert : Dict → String → PVal → Dict
  | [], key, v => [(key, v)]
  | (k0, v0) :: rest, key, v =>
    if k0 = key then (key, v) :: rest else (k0, v0) :: dinsert rest key v

/-- The `struct` format strings that occur in `content_parser.py`:
`"<i"` (signed 32-bit little-endian), `"<H"` (unsigned 16-bit LE),
`"<B"` (unsigned 8-bit), and `f"{n}s"` (an `n`-byte string) where `n`
comes from an `int` (and may be negative when computed from parsed
data, in which case `struct.calcsize` raises). -/
inductive StructFmt where
  | i32le
  | u16le
  | u8
  | strN (n : Int)
deriving DecidableEq, Repr

/-- `struct.calcsize`: the byte width of a format, or an error for a
negative count in an `f"{n}s"` format (Python raises `struct.error:
bad char in struct format` on the `-` character). -/
def calcsize : StructFmt → Except String Nat
  | .i32le => .ok 4
  | .u16le => .ok 2
  | .u8 => .ok 1
  | .strN n => if n < 0 then .error "bad char in struct format" else .ok n.toNat

/-- Little-endian value of a byte list (least significant byte first). -/
def leNat : List Byte → Nat
  | [] => 0
  | b :: rest => b.val + 256 * leNat rest

/-- Reinterpret an unsigned 32-bit value as a signed 32-bit integer
(two's complement), as `struct.unpack("<i", ...)` does. -/
def toSigned32 (n : Nat) : Int :=
  if n < 2 ^ 31 then (n : Int) else (n : Int) - 2 ^ 32

/-- `struct.unpack_from(fmt, payload, offset)` on an exact-width byte
slice `raw` (the caller has already checked the bounds). -/
def unpackVal (f : StructFmt) (raw : List Byte) : PVal :=
  match f with
  | .i32le => .int (toSigned32 (leNat raw))
  | .u16le => .int (leNat raw)
  | .u8 => .int (leNat raw)
  | .strN _ => .bytes raw

/-- The character decodings used by the format specifications. -/
inductive Encoding where
  | ascii
  | utf8
deriving DecidableEq, Repr

/-- `bytes.decode("ascii")`: every byte must be `< 0x80`,
otherwise `UnicodeDecodeError`. -/
def asciiDecode (bs : List Byte) : Except String String :=
  if bs.all (fun b => b.val < 128) then
    .ok (String.mk (bs.map (fun b => Char.ofNat b.val)))
  else .error "UnicodeDecodeError: ascii"

/-- `bytes.decode("utf-8")`: strict UTF-8 decoding (rejecting stray
continuation bytes, overlong forms, surrogates, and out-of-range
code points), as Python's strict `utf-8` codec does. -/
def utf8Decode : List Byte → Except String (List Char)
  | [] => .ok []
  | b :: rest =>
    if b.val < 0x80 then
      (utf8Decode rest).map (fun cs => Char.ofNat b.val :: cs)
    else if 0xC2 ≤ b.val ∧ b.val ≤ 0xDF then
      match rest with
      | c1 :: rest' =>
        if 0x80 ≤ c1.val ∧ c1.val ≤ 0xBF then
          (utf8Decode rest').map
            (fun cs => Char.ofNat ((b.val - 0xC0) * 64 + (c1.val - 0x80)) :: cs)
        else .error "UnicodeDecodeError: utf-8"
      | [] => .error "UnicodeDecodeError: utf-8"
    else if 0xE0 ≤ b.val ∧ b.val ≤ 0xEF then
      match rest with
      | c1 :: c2 :: rest' =>
        let lo1 := if b.val = 0xE0 then 0xA0 else 0x80
        let hi1 := if b.val = 0xED then 0x9F else 0xBF
        if (lo1 ≤ c1.val ∧ c1.val ≤ hi1) ∧ (0x80 ≤ c2.val ∧ c2.val ≤ 0xBF) then
          (utf8Decode rest').map
            (fun cs => Char.ofNat
              ((b.val - 0xE0) * 4096 + (c1.val - 0x80) * 64 + (c2.val - 0x80)) :: cs)
        else .error "UnicodeDecodeError: utf-8"
      | _ => .error "UnicodeDecodeError: utf-8"
    else if 0xF0 ≤ b.val ∧ b.val ≤ 0xF4 then
      match rest with
      | c1 :: c2 :: c3 :: rest' =>
        let lo1 := if b.val = 0xF0 then 0x90 else 0x80
        let hi1 := if b.val = 0xF4 then 0x8F else 0xBF
        if (lo1 ≤ c1.val ∧ c1.val ≤ hi1) ∧ (0x80 ≤ c2.val ∧ c2.val ≤ 0xBF) ∧
            (0x80 ≤ c3.val ∧ c3.val ≤ 0xBF) then
          (utf8Decode rest').map
            (fun cs => Char.ofNat
              ((b.val - 0xF0) * 262144 + (c1.val - 0x80) * 4096 +
                (c2.val - 0x80) * 64 + (c3.val - 0x80)) :: cs)
        else .error "UnicodeDecodeError: utf-8"
      | _ => .error "UnicodeDecodeError: utf-8"
    else .error "UnicodeDecodeError: utf-8"

/-- `bytes.decode("utf-8")` producing a `String`. -/
def utf8DecodeStr (bs : List Byte) : Except String String :=
  (utf8Decode bs).map String.mk

/-- One entry of the `format_spec` list of `parse_payload`
(the `FormatSpec` named tuple of `content_parser.py`).

`fmt` models Python's
`spec.fmt(result) if callable(spec.fmt) else spec.fmt` followed by the
`int → f"{n}s"` promotion: a constant format string or int becomes a
constant function, and the callables (which read previously parsed
fields from the result dict) may fail with a `KeyError`/`TypeError`. -/
structure FormatSpec where
  key : String
  fmt : Dict → Except String StructFmt
  decoding : Option Encoding

/-- A callable `fmt` of the form `lambda d: d[key]` (an int-valued
field read back from the result dict, promoted to `f"{n}s"`). -/
def intFieldFmt (key : String) (d : Dict) : Except String StructFmt :=
  match dlookup d key with
  | some (.int n) => .ok (.strN n)
  | some _ => .error "TypeError"
  | none => .error "KeyError"

/-- `if spec.decoding and isinstance(value, (bytes, bytearray)):
value = value.decode(spec.decoding)`. -/
def decodeValue (enc : Option Encoding) (v : PVal) : Except String PVal :=
  match enc, v with
  | some .ascii, .bytes b => (asciiDecode b).map .str
  | some .utf8, .bytes b => (utf8DecodeStr b).map .str
  | _, _ => .ok v

/-- The consuming loop of `parse_payload` (`content_parser.py` lines
28-43): resolve the format, compute its size (`struct.calcsize`),
**break** without error as soon as `offset + size > total_len`,
otherwise unpack the field, apply any character decoding, store it and
continue at the advanced offset.  A raised exception (unresolvable
format, negative size, decode failure) is an `.error`. -/
def parseFields (payload : List Byte) : List FormatSpec → Dict → Nat → Except String Dict
  | [], result, _ => .ok result
  | spec :: rest, result, offset =>
    match spec.fmt result with
    | .error e => .error e
    | .ok f =>
      match calcsize f with
      | .error e => .error e
      | .ok size =>
        if offset + size > payload.length then .ok result
        else
          match decodeValue spec.decoding (unpackVal f ((payload.drop offset).take size)) with
          | .error e => .error e
          | .ok v => parseFields payload rest (dinsert result spec.key v) (offset + size)

/-- The default written for a field the loop never populated
(`content_parser.py` lines 45-48): `""` when the spec has a character
decoding, `b""` otherwise. -/
def defaultFor (spec : FormatSpec) : PVal :=
  match spec.decoding with
  | some _ => .str ""
  | none => .bytes []

/-- The defaulting loop of `parse_payload`: every spec key still
missing from the result is set to its empty default. -/
def addDefaults : List FormatSpec → Dict → Dict
  | [], d => d
  | spec :: rest, d =>
    addDefaults rest
      (if (dlookup d spec.key).isSome then d else dinsert d spec.key (defaultFor spec))

/-- `parse_payload(payload, format_spec)` (`content_parser.py` lines
14-50).  An exception raised in the consuming loop propagates (the
defaulting loop then never runs). -/
def parse_payload (payload : List Byte) (format_spec : List FormatSpec) : Except String Dict :=
  (parseFields payload format_spec [] 0).map (addDefaults format_spec)

/-- v0 spec: `FormatSpec(key="len_ciphertext", fmt="<i", decoding=None)`. -/
def v0_spec_len : FormatSpec := ⟨"len_ciphertext", fun _ => .ok .i32le, none⟩

/-- v0 spec: `FormatSpec(key="platform_shortcode", fmt=1, decoding="ascii")`. -/
def v0_spec_shortcode : FormatSpec := ⟨"platform_shortcode", fun _ => .ok (.strN 1), some .ascii⟩

/-- v0 spec: `FormatSpec(key="ciphertext", fmt=lambda d: d["len_ciphertext"], decoding=None)`. -/
def v0_spec_ciphertext : FormatSpec := ⟨"ciphertext", intFieldFmt "len_ciphertext", none⟩

/-- v0 spec: `FormatSpec(key="device_id",
fmt=lambda d: len(payload) - (5 + d["len_ciphertext"]), decoding=None)`. -/
def v0_spec_device (payload : List Byte) : FormatSpec :=
  ⟨"device_id",
    fun d =>
      match dlookup d "len_ciphertext" with
      | some (.int n) => .ok (.strN ((payload.length : Int) - (5 + n)))
      | some _ => .error "TypeError"
      | none => .error "KeyError",
    none⟩

/-- The v0 `parsers` list of `decode_v0`: `len_ciphertext` as `"<i"`,
a 1-byte ascii `platform_shortcode`, `ciphertext` of
`d["len_ciphertext"]` bytes, and `device_id` of
`len(payload) - (5 + d["len_ciphertext"])` bytes. -/
def v0Parsers (payload : List Byte) : List FormatSpec :=
  [v0_spec_len, v0_spec_shortcode, v0_spec_ciphertext, v0_spec_device payload]

/-- `decode_v0(payload)` (`content_parser.py` lines 53-77): parse with
the v0 spec list; any exception is returned as the error component. -/
def decode_v0 (payload : List Byte) : Except String Dict :=
  parse_payload payload (v0Parsers payload)

/-- v1 spec: `FormatSpec(key="len_ciphertext", fmt="<H", decoding=None)`. -/
def v1_spec_len : FormatSpec := ⟨"len_ciphertext", fun _ => .ok .u16le, none⟩

/-- v1 spec: `FormatSpec(key="len_device_id", fmt="<B", decoding=None)`. -/
def v1_spec_lenDevice : FormatSpec := ⟨"len_device_id", fun _ => .ok .u8, none⟩

/-- v1 spec: `FormatSpec(key="platform_shortcode", fmt=1, decoding="ascii")`. -/
def v1_spec_shortcode : FormatSpec := ⟨"platform_shortcode", fun _ => .ok (.strN 1), some .ascii⟩

/-- v1 spec: `FormatSpec(key="ciphertext", fmt=lambda d: d["len_ciphertext"], decoding=None)`. -/
def v1_spec_ciphertext : FormatSpec := ⟨"ciphertext", intFieldFmt "len_ciphertext", none⟩

/-- v1 spec: `FormatSpec(key="device_id", fmt=lambda d: d["len_device_id"], decoding=None)`. -/
def v1_spec_device : FormatSpec := ⟨"device_id", intFieldFmt "len_device_id", none⟩

/-- v1 spec: `FormatSpec(key="language", fmt=2, decoding="ascii")`. -/
def v1_spec_language : FormatSpec := ⟨"language", fun _ => .ok (.strN 2), some .ascii⟩

/-- The v1 `parsers` list of `decode_v1`. -/
def v1Parsers : List FormatSpec :=
  [v1_spec_len, v1_spec_lenDevice, v1_spec_shortcode,
   v1_spec_ciphertext, v1_spec_device, v1_spec_language]

/-- `decode_v1(payload)` (`content_parser.py` lines 80-104):
`version = f"v{payload[0]}"` (an `IndexError` on an empty payload,
raised before the `try`), then parse `payload[1:]` with the v1 spec
list and record the version tag. -/
def decode_v1 (payload : List Byte) : Except String Dict :=
  match payload with
  | [] => .error "IndexError"
  | b :: rest =>
    (parse_payload rest v1Parsers).map
      (fun d => dinsert d "version" (.str ("v" ++ toString b.val)))

/-- `is_v0_payload(payload)` (`content_parser.py` lines 344-364):
at least 5 bytes, the first 4 bytes as a little-endian signed 32-bit
integer are non-negative, and the total length covers
`4 + 1 + ciphertext_length`. -/
def is_v0_payload (payload : List Byte) : Bool :=
  if payload.length < 5 then false
  else
    let ciphertext_length := toSigned32 (leNat (payload.take 4))
    if ciphertext_length < 0 then false
    else if (payload.length : Int) ≥ 4 + 1 + ciphertext_length then true
    else false

/-- The version dispatch of `decode_content` (`content_parser.py`
lines 107-122) after the base64 decoding of the wire string: route the
raw bytes to `decode_v0` when `is_v0_payload` accepts them, otherwise
to `decode_v1` (which reads byte 0 as the explicit version tag). -/
def decode_content_payload (payload : List Byte) : Except String Dict :=
  if is_v0_payload payload then decode_v0 payload else decode_v1 payload

/-- Little-endian 32-bit encoding of a natural number (the
`struct.pack("<i", n)` bytes for `0 ≤ n < 2^31`). -/
def int32le (n : Nat) : List Byte :=
  [⟨n % 256, Nat.mod_lt _ (by norm_num)⟩,
   ⟨n / 256 % 256, Nat.mod_lt _ (by norm_num)⟩,
   ⟨n / 65536 % 256, Nat.mod_lt _ (by norm_num)⟩,
   ⟨n / 16777216 % 256, Nat.mod_lt _ (by norm_num)⟩]

/-- Little-endian 16-bit encoding (the `struct.pack("<H", n)` bytes
for `n < 2^16`). -/
def u16le (n : Nat) : List Byte :=
  [⟨n % 256, Nat.mod_lt _ (by norm_num)⟩,
   ⟨n / 256 % 256, Nat.mod_lt _ (by norm_num)⟩]

/-- Single-byte encoding (the `struct.pack("<B", n)` byte for `n < 2^8`). -/
def u8byte (n : Nat) : Byte :=
  ⟨n % 256, Nat.mod_lt _ (by norm_num)⟩

/-! ## Generic lemmas about the parse engine -/

/-- A successful consuming step of `parse_payload`'s loop. -/
lemma parseFields_step (payload : List Byte) (spec : FormatSpec) (rest : List FormatSpec)
    (result : Dict) (offset : Nat) (f : StructFmt) (size : Nat) (v : PVal)
    (hf : spec.fmt result = .ok f) (hs : calcsize f = .ok size)
    (hb : offset + size ≤ payload.length)
    (hv : decodeValue spec.decoding (unpackVal f ((payload.drop offset).take size)) = .ok v) :
    parseFields payload (spec :: rest) result offset
      = parseFields payload rest (dinsert result spec.key v) (offset + size) := by
  simp only [parseFields, hf, hs, hv]
  rw [if_neg (by omega)]

/-- The loop breaks, with no error, at the first field whose size
exceeds the remaining buffer; fields after it are never evaluated. -/
lemma parseFields_break (payload : List Byte) (spec : FormatSpec) (rest : List FormatSpec)
    (result : Dict) (offset : Nat) (f : StructFmt) (size : Nat)
    (hf : spec.fmt result = .ok f) (hs : calcsize f = .ok size)
    (hb : payload.length < offset + size) :
    parseFields payload (spec :: rest) result offset = .ok result := by
  simp only [parseFields, hf, hs]
  rw [if_pos (by omega)]

/-- Slicing out the middle component of a decomposed buffer. -/
lemma slice_of_decomp (payload pre mid post : List Byte) (off sz : Nat)
    (hdec : payload = pre ++ (mid ++ post))
    (ho : off = pre.length) (hs : sz = mid.length) :
    (payload.drop off).take sz = mid := by
  subst hdec ho hs
  rw [List.drop_left, List.take_left]

lemma int32le_length (n : Nat) : (int32le n).length = 4 := rfl

lemma u16le_length (n : Nat) : (u16le n).length = 2 := rfl

lemma leNat_int32le (n : Nat) (h : n < 2 ^ 32) : leNat (int32le n) = n := by
  simp only [int32le, leNat]
  omega

lemma leNat_u16le (n : Nat) (h : n < 2 ^ 16) : leNat (u16le n) = n := by
  simp only [u16le, leNat]
  omega

lemma leNat_u8byte (n : Nat) (h : n < 2 ^ 8) : leNat [u8byte n] = n := by
  simp only [u8byte, leNat]
  omega

lemma toSigned32_of_small (n : Nat) (h : n < 2 ^ 31) : toSigned32 n = n := by
  rw [toSigned32, if_pos h]

lemma asciiDecode_one (p : Byte) (hp : p.val < 128) :
    asciiDecode [p] = .ok (String.mk [Char.ofNat p.val]) := by
  simp [asciiDecode, hp]

lemma asciiDecode_two (p q : Byte) (hp : p.val < 128) (hq : q.val < 128) :
    asciiDecode [p, q] = .ok (String.mk [Char.ofNat p.val, Char.ofNat q.val]) := by
  simp [asciiDecode, hp, hq]

lemma decode_v0_roundtrip (c d : List Byte) (p : Byte)
    (hc : c.length < 2 ^ 31) (hp : p.val < 128) :
    decode_v0 (int32le c.length ++ [p] ++ c ++ d) =
      .ok [("len_ciphertext", .int c.length),
           ("platform_shortcode", .str (String.mk [Char.ofNat p.val])),
           ("ciphertext", .bytes c),
           ("device_id", .bytes d)] := by
  set PAY := int32le c.length ++ [p] ++ c ++ d with hPAY
  have htot : PAY.length = 4 + 1 + c.length + d.length := by
    simp [hPAY, int32le]
    omega
  have hsl1 : (PAY.drop 0).take 4 = int32le c.length :=
    slice_of_decomp PAY [] (int32le c.length) ([p] ++ (c ++ d)) 0 4
      (by simp [hPAY]) rfl rfl
  have hsl2 : (PAY.drop 4).take 1 = [p] :=
    slice_of_decomp PAY (int32le c.length) [p] (c ++ d) 4 1
      (by simp [hPAY]) rfl rfl
  have hsl3 : (PAY.drop 5).take c.length = c :=
    slice_of_decomp PAY (int32le c.length ++ [p]) c d 5 c.length
      (by simp [hPAY]) (by simp [int32le]) rfl
  have hsl4 : (PAY.drop (5 + c.length)).take d.length = d :=
    slice_of_decomp PAY (int32le c.length ++ [p] ++ c) d [] (5 + c.length) d.length
      (by simp [hPAY]) (by simp [int32le]; omega) rfl
  have step1 : parseFields PAY (v0Parsers PAY) [] 0
      = parseFields PAY [v0_spec_shortcode, v0_spec_ciphertext, v0_spec_device PAY]
          [("len_ciphertext", .int c.length)] 4 := by
    have := parseFields_step PAY v0_spec_len
      [v0_spec_shortcode, v0_spec_ciphertext, v0_spec_device PAY]
      [] 0 .i32le 4 (.int c.length) rfl rfl (by omega)
      (by rw [hsl1]
          simp [unpackVal, decodeValue, leNat_int32le c.length (by omega),
                toSigned32_of_small c.length hc])
    simpa [v0Parsers, dinsert, dlookup, v0_spec_len] using this

  have step2 : parseFields PAY [v0_spec_shortcode, v0_spec_ciphertext, v0_spec_device PAY]
      [("len_ciphertext", .int c.length)] 4
      = parseFields PAY [v0_spec_ciphertext, v0_spec_device PAY]
          [("len_ciphertext", .int c.length),
           ("platform_shortcode", .str (String.mk [Char.ofNat p.val]))] 5 := by
    have := parseFields_step PAY v0_spec_shortcode
      [v0_spec_ciphertext, v0_spec_device PAY]
      [("len_ciphertext", .int c.length)] 4 (.strN 1) 1
      (.str (String.mk [Char.ofNat p.val])) rfl rfl (by omega)
      (by rw [hsl2]
          simp [v0_spec_shortcode, unpackVal, decodeValue, asciiDecode_one p hp, Except.map])
    simpa [dinsert, dlookup, v0_spec_shortcode] using this
  have hfmt3 : v0_spec_ciphertext.fmt
      [("len_ciphertext", .int c.length),
       ("platform_shortcode", .str (String.mk [Char.ofNat p.val]))]
      = .ok (.strN (c.length : Int)) := by
    simp [v0_spec_ciphertext, intFieldFmt, dlookup]
  have hcs3 : calcsize (.strN (c.length : Int)) = .ok c.length := by
    simp only [calcsize]
    rw [if_neg (by omega)]
    simp
  have step3 : parseFields PAY [v0_spec_ciphertext, v0_spec_device PAY]
      [("len_ciphertext", .int c.length),
       ("platform_shortcode", .str (String.mk [Char.ofNat p.val]))] 5
      = parseFields PAY [v0_spec_device PAY]
          [("len_ciphertext", .int c.length),
           ("platform_shortcode", .str (String.mk [Char.ofNat p.val])),
           ("ciphertext", .bytes c)] (5 + c.length) := by
    have := parseFields_step PAY v0_spec_ciphertext [v0_spec_device PAY]
      [("len_ciphertext", .int c.length),
       ("platform_shortcode", .str (String.mk [Char.ofNat p.val]))] 5
      (.strN (c.length : Int)) c.length (.bytes c) hfmt3 hcs3 (by omega)
      (by rw [hsl3]; simp [v0_spec_ciphertext, unpackVal, decodeValue])
    simpa [dinsert, dlookup, v0_spec_ciphertext] using this
  have harith : (PAY.length : Int) - (5 + (c.length : Int)) = (d.length : Int) := by
    rw [htot]
    push_cast
    ring
  have hfmt4 : (v0_spec_device PAY).fmt
      [("len_ciphertext", .int c.length),
       ("platform_shortcode", .str (String.mk [Char.ofNat p.val])),
       ("ciphertext", .bytes c)]
      = .ok (.strN (d.length : Int)) := by
    simp [v0_spec_device, dlookup, harith]
  have hcs4 : calcsize (.strN (d.length : Int)) = .ok d.length := by
    simp only [calcsize]
    rw [if_neg (by omega)]
    simp
  have step4 : parseFields PAY [v0_spec_device PAY]
      [("len_ciphertext", .int c.length),
       ("platform_shortcode", .str (String.mk [Char.ofNat p.val])),
       ("ciphertext", .bytes c)] (5 + c.length)
      = .ok [("len_ciphertext", .int c.length),
             ("platform_shortcode", .str (String.mk [Char.ofNat p.val])),
             ("ciphertext", .bytes c),
             ("device_id", .bytes d)] := by
    have := parseFields_step PAY (v0_spec_device PAY) []
      [("len_ciphertext", .int c.length),
       ("platform_shortcode", .str (String.mk [Char.ofNat p.val])),
       ("ciphertext", .bytes c)] (5 + c.length)
      (.strN (d.length : Int)) d.length (.bytes d) hfmt4 hcs4 (by omega)
      (by rw [hsl4]; simp [v0_spec_device, unpackVal, decodeValue])
    rw [this]
    simp [parseFields, dinsert, dlookup, v0_spec_device]
  rw [decode_v0, parse_payload, step1, step2, step3, step4]
  simp only [Except.map]
  congr 1

lemma decode_v1_roundtrip (c d : List Byte) (p l1 l2 : Byte)
    (hc : c.length < 2 ^ 16) (hd : d.length < 2 ^ 8)
    (hp : p.val < 128) (hl1 : l1.val < 128) (hl2 : l2.val < 128) :
    decode_v1 ((1 : Byte) :: (u16le c.length ++ [u8byte d.length] ++ [p] ++ c ++ d ++ [l1, l2])) =
      .ok [("len_ciphertext", .int c.length),
           ("len_device_id", .int d.length),
           ("platform_shortcode", .str (String.mk [Char.ofNat p.val])),
           ("ciphertext", .bytes c),
           ("device_id", .bytes d),
           ("language", .str (String.mk [Char.ofNat l1.val, Char.ofNat l2.val])),
           ("version", .str "v1")] := by
  set R := u16le c.length ++ [u8byte d.length] ++ [p] ++ c ++ d ++ [l1, l2] with hR
  have htot : R.length = 6 + c.length + d.length := by
    simp [hR, u16le]
    omega
  have hsl1 : (R.drop 0).take 2 = u16le c.length :=
    slice_of_decomp R [] (u16le c.length) ([u8byte d.length] ++ ([p] ++ (c ++ (d ++ [l1, l2])))) 0 2
      (by simp [hR]) rfl rfl
  have hsl2 : (R.drop 2).take 1 = [u8byte d.length] :=
    slice_of_decomp R (u16le c.length) [u8byte d.length] ([p] ++ (c ++ (d ++ [l1, l2]))) 2 1
      (by simp [hR]) rfl rfl
  have hsl3 : (R.drop 3).take 1 = [p] :=
    slice_of_decomp R (u16le c.length ++ [u8byte d.length]) [p] (c ++ (d ++ [l1, l2])) 3 1
      (by simp [hR]) (by simp [u16le]) rfl
  have hsl4 : (R.drop 4).take c.length = c :=
    slice_of_decomp R (u16le c.length ++ [u8byte d.length] ++ [p]) c (d ++ [l1, l2]) 4 c.length
      (by simp [hR]) (by simp [u16le]) rfl
  have hsl5 : (R.drop (4 + c.length)).take d.length = d :=
    slice_of_decomp R (u16le c.length ++ [u8byte d.length] ++ [p] ++ c) d [l1, l2]
      (4 + c.length) d.length
      (by simp [hR]) (by simp [u16le]; omega) rfl
  have hsl6 : (R.drop (4 + c.length + d.length)).take 2 = [l1, l2] :=
    slice_of_decomp R (u16le c.length ++ [u8byte d.length] ++ [p] ++ c ++ d) [l1, l2] []
      (4 + c.length + d.length) 2
      (by simp [hR]) (by simp [u16le]; omega) rfl
  have step1 : parseFields R v1Parsers [] 0
      = parseFields R [v1_spec_lenDevice, v1_spec_shortcode, v1_spec_ciphertext,
          v1_spec_device, v1_spec_language]
          [("len_ciphertext", .int c.length)] 2 := by
    have := parseFields_step R v1_spec_len
      [v1_spec_lenDevice, v1_spec_shortcode, v1_spec_ciphertext, v1_spec_device, v1_spec_language]
      [] 0 .u16le 2 (.int c.length) rfl rfl (by omega)
      (by rw [hsl1]
          simp [v1_spec_len, unpackVal, decodeValue, leNat_u16le c.length hc])
    simpa [v1Parsers, dinsert, dlookup, v1_spec_len] using this
  have step2 : parseFields R [v1_spec_lenDevice, v1_spec_shortcode, v1_spec_ciphertext,
          v1_spec_device, v1_spec_language]
          [("len_ciphertext", .int c.length)] 2
      = parseFields R [v1_spec_shortcode, v1_spec_ciphertext, v1_spec_device, v1_spec_language]
          [("len_ciphertext", .int c.length), ("len_device_id", .int d.length)] 3 := by
    have := parseFields_step R v1_spec_lenDevice
      [v1_spec_shortcode, v1_spec_ciphertext, v1_spec_device, v1_spec_language]
      [("len_ciphertext", .int c.length)] 2 .u8 1 (.int d.length) rfl rfl (by omega)
      (by rw [hsl2]
          simp [v1_spec_lenDevice, unpackVal, decodeValue, leNat_u8byte d.length hd])
    simpa [dinsert, dlookup, v1_spec_lenDevice] using this
  have step3 : parseFields R [v1_spec_shortcode, v1_spec_ciphertext, v1_spec_device, v1_spec_language]
          [("len_ciphertext", .int c.length), ("len_device_id", .int d.length)] 3
      = parseFields R [v1_spec_ciphertext, v1_spec_device, v1_spec_language]
          [("len_ciphertext", .int c.length), ("len_device_id", .int d.length),
           ("platform_shortcode", .str (String.mk [Char.ofNat p.val]))] 4 := by
    have := parseFields_step R v1_spec_shortcode
      [v1_spec_ciphertext, v1_spec_device, v1_spec_language]
      [("len_ciphertext", .int c.length), ("len_device_id", .int d.length)] 3
      (.strN 1) 1 (.str (String.mk [Char.ofNat p.val])) rfl rfl (by omega)
      (by rw [hsl3]
          simp [v1_spec_shortcode, unpackVal, decodeValue, asciiDecode_one p hp, Except.map])
    simpa [dinsert, dlookup, v1_spec_shortcode] using this
  have hfmt4 : v1_spec_ciphertext.fmt
      [("len_ciphertext", .int c.length), ("len_device_id", .int d.length),
       ("platform_shortcode", .str (String.mk [Char.ofNat p.val]))]
      = .ok (.strN (c.length : Int)) := by
    simp [v1_spec_ciphertext, intFieldFmt, dlookup]
  have hcsc : calcsize (.strN (c.length : Int)) = .ok c.length := by
    simp only [calcsize]
    rw [if_neg (by omega)]
    simp
  have step4 : parseFields R [v1_spec_ciphertext, v1_spec_device, v1_spec_language]
          [("len_ciphertext", .int c.length), ("len_device_id", .int d.length),
           ("platform_shortcode", .str (String.mk [Char.ofNat p.val]))] 4
      = parseFields R [v1_spec_device, v1_spec_language]
          [("len_ciphertext", .int c.length), ("len_device_id", .int d.length),
           ("platform_shortcode", .str (String.mk [Char.ofNat p.val])),
           ("ciphertext", .bytes c)] (4 + c.length) := by
    have := parseFields_step R v1_spec_ciphertext [v1_spec_device, v1_spec_language]
      [("len_ciphertext", .int c.length), ("len_device_id", .int d.length),
       ("platform_shortcode", .str (String.mk [Char.ofNat p.val]))] 4
      (.strN (c.length : Int)) c.length (.bytes c) hfmt4 hcsc (by omega)
      (by rw [hsl4]; simp [v1_spec_ciphertext, unpackVal, decodeValue])
    simpa [dinsert, dlookup, v1_spec_ciphertext] using this
  have hfmt5 : v1_spec_device.fmt
      [("len_ciphertext", .int c.length), ("len_device_id", .int d.length),
       ("platform_shortcode", .str (String.mk [Char.ofNat p.val])),
       ("ciphertext", .bytes c)]
      = .ok (.strN (d.length : Int)) := by
    simp [v1_spec_device, intFieldFmt, dlookup]
  have hcsd : calcsize (.strN (d.length : Int)) = .ok d.length := by
    simp only [calcsize]
    rw [if_neg (by omega)]
    simp
  have step5 : parseFields R [v1_spec_device, v1_spec_language]
          [("len_ciphertext", .int c.length), ("len_device_id", .int d.length),
           ("platform_shortcode", .str (String.mk [Char.ofNat p.val])),
           ("ciphertext", .bytes c)] (4 + c.length)
      = parseFields R [v1_spec_language]
          [("len_ciphertext", .int c.length), ("len_device_id", .int d.length),
           ("platform_shortcode", .str (String.mk [Char.ofNat p.val])),
           ("ciphertext", .bytes c), ("device_id", .bytes d)] (4 + c.length + d.length) := by
    have := parseFields_step R v1_spec_device [v1_spec_language]
      [("len_ciphertext", .int c.length), ("len_device_id", .int d.length),
       ("platform_shortcode", .str (String.mk [Char.ofNat p.val])),
       ("ciphertext", .bytes c)] (4 + c.length)
      (.strN (d.length : Int)) d.length (.bytes d) hfmt5 hcsd (by omega)
      (by rw [hsl5]; simp [v1_spec_device, unpackVal, decodeValue])
    simpa [dinsert, dlookup, v1_spec_device] using this
  have step6 : parseFields R [v1_spec_language]
          [("len_ciphertext", .int c.length), ("len_device_id", .int d.length),
           ("platform_shortcode", .str (String.mk [Char.ofNat p.val])),
           ("ciphertext", .bytes c), ("device_id", .bytes d)] (4 + c.length + d.length)
      = .ok [("len_ciphertext", .int c.length), ("len_device_id", .int d.length),
             ("platform_shortcode", .str (String.mk [Char.ofNat p.val])),
             ("ciphertext", .bytes c), ("device_id", .bytes d),
             ("language", .str (String.mk [Char.ofNat l1.val, Char.ofNat l2.val]))] := by
    have := parseFields_step R v1_spec_language []
      [("len_ciphertext", .int c.length), ("len_device_id", .int d.length),
       ("platform_shortcode", .str (String.mk [Char.ofNat p.val])),
       ("ciphertext", .bytes c), ("device_id", .bytes d)] (4 + c.length + d.length)
      (.strN 2) 2 (.str (String.mk [Char.ofNat l1.val, Char.ofNat l2.val])) rfl rfl (by omega)
      (by rw [hsl6]
          simp [v1_spec_language, unpackVal, decodeValue, asciiDecode_two l1 l2 hl1 hl2, Except.map])
    rw [this]
    simp [parseFields, dinsert, dlookup, v1_spec_language]
  rw [decode_v1]
  rw [parse_payload, step1, step2, step3, step4, step5, step6]
  simp only [Except.map]
  congr 1

/-! ## C1: round-trip of the payload decoder -/

/-- C1: for every ciphertext `c`, 1-byte ASCII platform shortcode `p`
and device-id bytes `d`, decoding the v0 encoding
`int32_le(len(c)) ++ p ++ c ++ d` with `decode_v0` reproduces
`len_ciphertext = len(c)`, the shortcode, the ciphertext and the
device id with no error; and for `len(c) < 2^16`, `len(d) < 2^8` and a
2-byte ASCII language code, decoding the v1 encoding
`byte(1) ++ uint16_le(len(c)) ++ uint8(len(d)) ++ p ++ c ++ d ++ lang`
with `decode_v1` reproduces all fields plus the language and
`version = "v1"`, with no error.  (`len(c) < 2^31` in the v0 case is
forced by the claim's own `int32_le(len(c))` encoding.) -/
theorem C1_payload_roundtrip
    (c d : List Byte) (p : Byte) (hc : c.length < 2 ^ 31) (hp : p.val < 128)
    (c' d' : List Byte) (p' l1 l2 : Byte)
    (hc' : c'.length < 2 ^ 16) (hd' : d'.length < 2 ^ 8)
    (hp' : p'.val < 128) (hl1 : l1.val < 128) (hl2 : l2.val < 128) :
    decode_v0 (int32le c.length ++ [p] ++ c ++ d) =
      .ok [("len_ciphertext", .int c.length),
           ("platform_shortcode", .str (String.mk [Char.ofNat p.val])),
           ("ciphertext", .bytes c),
           ("device_id", .bytes d)]
    ∧ decode_v1 ((1 : Byte) :: (u16le c'.length ++ [u8byte d'.length] ++ [p'] ++ c' ++ d' ++ [l1, l2])) =
      .ok [("len_ciphertext", .int c'.length),
           ("len_device_id", .int d'.length),
           ("platform_shortcode", .str (String.mk [Char.ofNat p'.val])),
           ("ciphertext", .bytes c'),
           ("device_id", .bytes d'),
           ("language", .str (String.mk [Char.ofNat l1.val, Char.ofNat l2.val])),
           ("version", .str "v1")] :=
  ⟨decode_v0_roundtrip c d p hc hp,
   decode_v1_roundtrip c' d' p' l1 l2 hc' hd' hp' hl1 hl2⟩

/-- Witness for C1 at `c = b"h"`, `p = b"g"`, `d = b"\x09"`,
`lang = b"en"`. -/
theorem C1_payload_roundtrip_witness :
    decode_v0 (int32le [(104 : Byte)].length ++ [(103 : Byte)] ++ [(104 : Byte)] ++ [(9 : Byte)]) =
      .ok [("len_ciphertext", .int [(104 : Byte)].length),
           ("platform_shortcode", .str (String.mk [Char.ofNat (103 : Byte).val])),
           ("ciphertext", .bytes [(104 : Byte)]),
           ("device_id", .bytes [(9 : Byte)])]
    ∧ decode_v1 ((1 : Byte) :: (u16le [(104 : Byte)].length ++ [u8byte [(9 : Byte)].length] ++
        [(103 : Byte)] ++ [(104 : Byte)] ++ [(9 : Byte)] ++ [(101 : Byte), (110 : Byte)])) =
      .ok [("len_ciphertext", .int [(104 : Byte)].length),
           ("len_device_id", .int [(9 : Byte)].length),
           ("platform_shortcode", .str (String.mk [Char.ofNat (103 : Byte).val])),
           ("ciphertext", .bytes [(104 : Byte)]),
           ("device_id", .bytes [(9 : Byte)]),
           ("language", .str (String.mk [Char.ofNat (101 : Byte).val, Char.ofNat (110 : Byte).val])),
           ("version", .str "v1")] :=
  C1_payload_roundtrip [(104 : Byte)] [(9 : Byte)] (103 : Byte) (by decide) (by decide)
    [(104 : Byte)] [(9 : Byte)] (103 : Byte) (101 : Byte) (110 : Byte)
    (by decide) (by decide) (by decide) (by decide) (by decide)

/-! ## Lemmas about dictionary insertion and the defaulting loop -/

lemma dlookup_dinsert_self (d : Dict) (k : String) (v : PVal) :
    dlookup (dinsert d k v) k = some v := by
  induction d with
  | nil => simp [dinsert, dlookup]
  | cons kv rest ih =>
    obtain ⟨k0, v0⟩ := kv
    by_cases hk : k0 = k
    · simp [dinsert, dlookup, hk]
    · simp [dinsert, dlookup, hk, ih]

lemma dlookup_dinsert_ne (d : Dict) (k k' : String) (v : PVal) (hne : k ≠ k') :
    dlookup (dinsert d k' v) k = dlookup d k := by
  induction d with
  | nil => simp [dinsert, dlookup, Ne.symm hne]
  | cons kv rest ih =>
    obtain ⟨k0, v0⟩ := kv
    by_cases hk : k0 = k'
    · simp [dinsert, dlookup, hk, Ne.symm hne]
    · simp [dinsert, dlookup, hk, ih]

lemma addDefaults_preserves (specs : List FormatSpec) (d : Dict) (k : String) (v : PVal)
    (h : dlookup d k = some v) :
    dlookup (addDefaults specs d) k = some v := by
  induction specs generalizing d with
  | nil => simpa [addDefaults] using h
  | cons s rest ih =>
    rw [addDefaults]
    by_cases hs : (dlookup d s.key).isSome
    · rw [if_pos hs]
      exact ih d h
    · rw [if_neg hs]
      apply ih
      by_cases hk : k = s.key
      · subst hk
        rw [h] at hs
        simp at hs
      · rw [dlookup_dinsert_ne d k s.key _ hk]
        exact h

lemma addDefaults_defaults (specs : List FormatSpec) (d : Dict) (s : FormatSpec)
    (hmem : s ∈ specs) (hnodup : (specs.map FormatSpec.key).Nodup)
    (h : dlookup d s.key = none) :
    dlookup (addDefaults specs d) s.key = some (defaultFor s) := by
  induction specs generalizing d with
  | nil => simp at hmem
  | cons s0 rest ih =>
    rw [addDefaults]
    rw [List.map_cons, List.nodup_cons] at hnodup
    rcases List.mem_cons.mp hmem with rfl | hmem'
    · rw [if_neg (by simp [h])]
      exact addDefaults_preserves rest _ _ _ (dlookup_dinsert_self d s.key (defaultFor s))
    · have hkey_ne : s.key ≠ s0.key := by
        intro he
        exact hnodup.1 (he ▸ List.mem_map_of_mem FormatSpec.key hmem')
      by_cases hs : (dlookup d s0.key).isSome
      · rw [if_pos hs]
        exact ih d hmem' hnodup.2 h
      · rw [if_neg hs]
        apply ih _ hmem' hnodup.2
        rw [dlookup_dinsert_ne _ _ _ _ hkey_ne]
        exact h

lemma addDefaults_total (specs : List FormatSpec) (d : Dict) (s : FormatSpec)
    (hmem : s ∈ specs) :
    (dlookup (addDefaults specs d) s.key).isSome := by
  induction specs generalizing d with
  | nil => simp at hmem
  | cons s0 rest ih =>
    rw [addDefaults]
    rcases List.mem_cons.mp hmem with rfl | hmem'
    · by_cases hs : (dlookup d s.key).isSome
      · rw [if_pos hs]
        obtain ⟨v, hv⟩ := Option.isSome_iff_exists.mp hs
        simp [addDefaults_preserves rest d s.key v hv]
      · rw [if_neg hs]
        simp [addDefaults_preserves rest _ s.key _ (dlookup_dinsert_self d s.key (defaultFor s))]
    · by_cases hs : (dlookup d s0.key).isSome
      · rw [if_pos hs]
        exact ih d hmem'
      · rw [if_neg hs]
        exact ih _ hmem'


/-! ## C2: version sniffing; C3: truncation leniency -/

/-- C2: for every byte buffer `b`, `decode_content` classifies `b` as
v0 exactly when `len(b) >= 5`, the first 4 bytes read as a little-endian
signed 32-bit integer `n` satisfy `n >= 0`, and `len(b) >= 4 + 1 + n`;
every buffer failing this test is parsed by the v1/v2 decoder, which
takes byte 0 as the explicit version tag. -/
theorem C2_version_sniffing (b : List Byte) :
    (is_v0_payload b = true ↔
      (5 ≤ b.length ∧ 0 ≤ toSigned32 (leNat (b.take 4)) ∧
        4 + 1 + toSigned32 (leNat (b.take 4)) ≤ (b.length : Int)))
  ∧ decode_content_payload b = (if is_v0_payload b then decode_v0 b else decode_v1 b)
  ∧ (∀ hd tl m, b = hd :: tl → is_v0_payload b = false → decode_v1 b = .ok m →
      dlookup m "version" = some (.str ("v" ++ toString hd.val))) := by
  refine ⟨?_, rfl, ?_⟩
  · simp only [is_v0_payload]
    split_ifs with h1 h2 h3
    · simp only [false_iff]
      omega
    · simp only [false_iff]
      push_neg
      intro hlen
      omega
    · simp only [true_iff]
      refine ⟨by omega, by omega, by omega⟩
    · simp only [false_iff]
      push_neg
      intro hlen hcl
      omega
  · intro hd tl m hb hv0 hok
    subst hb
    rw [decode_v1] at hok
    cases hp : parse_payload tl v1Parsers with
    | error e =>
      rw [hp] at hok
      simp [Except.map] at hok
    | ok r =>
      rw [hp] at hok
      simp only [Except.map, Except.ok.injEq] at hok
      subst hok
      exact dlookup_dinsert_self r "version" (.str ("v" ++ toString hd.val))

/-- C3 (amended): provided the evaluation of every field before the
truncation point succeeds (no negative computed size, no failed
character decoding, distinct field keys), `parse_payload` stops
consuming at the first field whose declared size exceeds the remaining
buffer, without error, and every field not yet populated is defaulted
to `""` (when the field has a character decoding) or `b""` (otherwise);
a failed field evaluation instead raises, and the decoders return it as
the error component (see the counterexample). -/
theorem C3_truncation_leniency
    (payload : List Byte) (spec : FormatSpec) (rest specs : List FormatSpec)
    (result m : Dict) (offset : Nat) (f : StructFmt) (size : Nat)
    (hf : spec.fmt result = .ok f) (hs : calcsize f = .ok size)
    (hb : payload.length < offset + size)
    (hnodup : (specs.map FormatSpec.key).Nodup) :
    parseFields payload (spec :: rest) result offset = .ok result
  ∧ (∀ s ∈ specs, dlookup result s.key = none →
      dlookup (addDefaults specs result) s.key = some (defaultFor s))
  ∧ (parse_payload payload specs = .ok m → ∀ s ∈ specs, (dlookup m s.key).isSome) := by
  refine ⟨parseFields_break payload spec rest result offset f size hf hs hb, ?_, ?_⟩
  · intro s hmem h
    exact addDefaults_defaults specs result s hmem hnodup h
  · intro hok s hmem
    rw [parse_payload] at hok
    cases hp : parseFields payload specs [] 0 with
    | error e =>
      rw [hp] at hok
      simp [Except.map] at hok
    | ok r =>
      rw [hp] at hok
      simp only [Except.map, Except.ok.injEq] at hok
      subst hok
      exact addDefaults_total specs r s hmem

/-- C3 counterexample to the claim as stated: `parse_payload` (and
hence `decode_v0`) does raise for a buffer whose first four bytes
decode to a negative `len_ciphertext`: the computed `f"{n}s"` format of
the ciphertext field has a negative count, so `struct.calcsize` raises
before any truncation check, and `decode_v0` returns it as the error
component instead of a mapping. -/
theorem C3_counterexample :
    decode_v0 [(255 : Byte), 255, 255, 255, 103] = .error "bad char in struct format" := by
  rfl


/-- Witness for C2 at `b = bytes([1])`. -/
theorem C2_version_sniffing_witness :
    dlookup [("len_ciphertext", PVal.bytes []), ("len_device_id", PVal.bytes []),
             ("platform_shortcode", PVal.str ""), ("ciphertext", PVal.bytes []),
             ("device_id", PVal.bytes []), ("language", PVal.str ""),
             ("version", PVal.str "v1")] "version"
      = some (.str ("v" ++ toString (1 : Byte).val)) :=
  (C2_version_sniffing [(1 : Byte)]).2.2 1 []
    [("len_ciphertext", PVal.bytes []), ("len_device_id", PVal.bytes []),
     ("platform_shortcode", PVal.str ""), ("ciphertext", PVal.bytes []),
     ("device_id", PVal.bytes []), ("language", PVal.str ""),
     ("version", PVal.str "v1")] rfl rfl rfl

/-- Witness for C3 on the empty buffer with the v0 length field as the
truncating spec and the v1 spec list for the defaulting clauses. -/
theorem C3_truncation_leniency_witness :
    parseFields [] [v0_spec_len] [] 0 = .ok []
  ∧ (∀ s ∈ v1Parsers, dlookup [] s.key = none →
      dlookup (addDefaults v1Parsers []) s.key = some (defaultFor s))
  ∧ (parse_payload [] v1Parsers =
        .ok [("len_ciphertext", PVal.bytes []), ("len_device_id", PVal.bytes []),
             ("platform_shortcode", PVal.str ""), ("ciphertext", PVal.bytes []),
             ("device_id", PVal.bytes []), ("language", PVal.str "")] →
      ∀ s ∈ v1Parsers,
        (dlookup [("len_ciphertext", PVal.bytes []), ("len_device_id", PVal.bytes []),
                  ("platform_shortcode", PVal.str ""), ("ciphertext", PVal.bytes []),
                  ("device_id", PVal.bytes []), ("language", PVal.str "")] s.key).isSome) :=
  C3_truncation_leniency [] v0_spec_len [] v1Parsers []
    [("len_ciphertext", PVal.bytes []), ("len_device_id", PVal.bytes []),
     ("platform_shortcode", PVal.str ""), ("ciphertext", PVal.bytes []),
     ("device_id", PVal.bytes []), ("language", PVal.str "")]
    0 .i32le 4 rfl rfl (by decide) (by decide)



/-! ## Content extractors (`extract_content_v0/v1/v2`) -/

/-- Find the first occurrence of `sep`, returning the characters
before it and the remainder after it. -/
def breakAt : List Char → Char → Option (List Char × List Char)
  | [], _ => none
  | ch :: cs, sep =>
    if ch = sep then some ([], cs)
    else (breakAt cs sep).map (fun pr => (ch :: pr.1, pr.2))

/-- Python `str.split(sep, maxsplit)` on character lists for a
single-character separator: split at the first `maxsplit` occurrences
(`"".split(sep, n) = [""]`). -/
def splitChars (sep : Char) : List Char → Nat → List (List Char)
  | cs, 0 => [cs]
  | cs, n + 1 =>
    match breakAt cs sep with
    | none => [cs]
    | some (pre, suf) => pre :: splitChars sep suf n

/-- Python `content.split(sep, maxsplit)` on strings. -/
def pysplit (s : String) (sep : Char) (maxsplit : Nat) : List String :=
  (splitChars sep s.toList maxsplit).map String.mk

/-- The `email` branch of `extract_content_v0` (`content_parser.py`
lines 138-155): split on `":"` with maxsplit 7; fewer than 6 parts is
an error; parts 6 and 7 (access/refresh token) default to `None`. -/
def extractEmailV0 (content : String) : Except String (List (Option String)) :=
  let parts := pysplit content ':' 7
  if parts.length < 6 then .error "Email content must have at least 6 parts."
  else
    .ok [some (parts.getD 0 ""), some (parts.getD 1 ""), some (parts.getD 2 ""),
         some (parts.getD 3 ""), some (parts.getD 4 ""), some (parts.getD 5 ""),
         if 6 < parts.length then some (parts.getD 6 "") else none,
         if 7 < parts.length then some (parts.getD 7 "") else none]

/-- The `text` branch of `extract_content_v0` (lines 157-165). -/
def extractTextV0 (content : String) : Except String (List (Option String)) :=
  let parts := pysplit content ':' 3
  if parts.length < 2 then .error "Text content must have at least 2 parts."
  else
    .ok [some (parts.getD 0 ""), some (parts.getD 1 ""),
         if 2 < parts.length then some (parts.getD 2 "") else none,
         if 3 < parts.length then some (parts.getD 3 "") else none]

/-- The `message` branch of `extract_content_v0` (lines 167-173). -/
def extractMessageV0 (content : String) : Except String (List (Option String)) :=
  let parts := pysplit content ':' 2
  if parts.length ≠ 3 then .error "Message content must have exactly 3 parts."
  else .ok [some (parts.getD 0 ""), some (parts.getD 1 ""), some (parts.getD 2 "")]

/-- `extract_content_v0(service_type, content)` (`content_parser.py`
lines 125-179): colon-delimited extraction.  The returned Python tuple
is modelled as a `List (Option String)` (an entry is `none` where the
tuple holds `None`); the `(None, error)` returns are `.error`. -/
def extract_content_v0 (service_type : String) (content : String) :
    Except String (List (Option String)) :=
  if service_type = "email" then extractEmailV0 content
  else if service_type = "text" then extractTextV0 content
  else if service_type = "message" then extractMessageV0 content
  else if service_type = "test" then .ok [some content]
  else .error "Invalid service_type. Must be 'email', 'text', 'message', or 'test'."

/-- The v1 extractor's `parsers` list (`content_parser.py` lines
195-218): eight length prefixes (`<B`/`<H` mixed), then eight UTF-8
decoded variable-length fields. -/
def v1ExtractParsers : List FormatSpec :=
  [ ⟨"length_from", fun _ => .ok .u8, none⟩,
    ⟨"length_to", fun _ => .ok .u16le, none⟩,
    ⟨"length_cc", fun _ => .ok .u16le, none⟩,
    ⟨"length_bcc", fun _ => .ok .u16le, none⟩,
    ⟨"length_subject", fun _ => .ok .u8, none⟩,
    ⟨"length_body", fun _ => .ok .u16le, none⟩,
    ⟨"length_access_token", fun _ => .ok .u8, none⟩,
    ⟨"length_refresh_token", fun _ => .ok .u8, none⟩,
    ⟨"from", intFieldFmt "length_from", some .utf8⟩,
    ⟨"to", intFieldFmt "length_to", some .utf8⟩,
    ⟨"cc", intFieldFmt "length_cc", some .utf8⟩,
    ⟨"bcc", intFieldFmt "length_bcc", some .utf8⟩,
    ⟨"subject", intFieldFmt "length_subject", some .utf8⟩,
    ⟨"body", intFieldFmt "length_body", some .utf8⟩,
    ⟨"access_token", intFieldFmt "length_access_token", some .utf8⟩,
    ⟨"refresh_token", intFieldFmt "length_refresh_token", some .utf8⟩ ]

/-- The v2 extractor's `parsers` list (`content_parser.py` lines
276-299): identical to v1 except the access/refresh token length
prefixes are `<H` instead of `<B`. -/
def v2ExtractParsers : List FormatSpec :=
  [ ⟨"length_from", fun _ => .ok .u8, none⟩,
    ⟨"length_to", fun _ => .ok .u16le, none⟩,
    ⟨"length_cc", fun _ => .ok .u16le, none⟩,
    ⟨"length_bcc", fun _ => .ok .u16le, none⟩,
    ⟨"length_subject", fun _ => .ok .u8, none⟩,
    ⟨"length_body", fun _ => .ok .u16le, none⟩,
    ⟨"length_access_token", fun _ => .ok .u16le, none⟩,
    ⟨"length_refresh_token", fun _ => .ok .u16le, none⟩,
    ⟨"from", intFieldFmt "length_from", some .utf8⟩,
    ⟨"to", intFieldFmt "length_to", some .utf8⟩,
    ⟨"cc", intFieldFmt "length_cc", some .utf8⟩,
    ⟨"bcc", intFieldFmt "length_bcc", some .utf8⟩,
    ⟨"subject", intFieldFmt "length_subject", some .utf8⟩,
    ⟨"body", intFieldFmt "length_body", some .utf8⟩,
    ⟨"access_token", intFieldFmt "length_access_token", some .utf8⟩,
    ⟨"refresh_token", intFieldFmt "length_refresh_token", some .utf8⟩ ]

/-- The `email` reshaping of the v1/v2 extractors: mandatory
`result[k]` accesses (a `KeyError` on a missing key, never reached
since `parse_payload` defaults every key) plus `result.get(k)` token
accesses (`none` on a missing key). -/
def reshapeEmail (result : Dict) : Except String (List (Option PVal)) :=
  match dlookup result "from", dlookup result "to", dlookup result "cc",
        dlookup result "bcc", dlookup result "subject", dlookup result "body" with
  | some f, some t, some cc, some bcc, some su, some bo =>
    .ok [some f, some t, some cc, some bcc, some su, some bo,
         dlookup result "access_token", dlookup result "refresh_token"]
  | _, _, _, _, _, _ => .error "KeyError"

/-- The `text` reshaping of the v1/v2 extractors. -/
def reshapeText (result : Dict) : Except String (List (Option PVal)) :=
  match dlookup result "from", dlookup result "body" with
  | some f, some bo =>
    .ok [some f, some bo, dlookup result "access_token", dlookup result "refresh_token"]
  | _, _ => .error "KeyError"

/-- The `message` reshaping of the v1/v2 extractors
(`content_parser.py` lines 243-250): five positional fields
`(from, to, body, access_token, refresh_token)`. -/
def reshapeMessage (result : Dict) : Except String (List (Option PVal)) :=
  match dlookup result "from", dlookup result "to", dlookup result "body" with
  | some f, some t, some bo =>
    .ok [some f, some t, some bo,
         dlookup result "access_token", dlookup result "refresh_token"]
  | _, _, _ => .error "KeyError"

/-- The `test` reshaping of the v1/v2 extractors. -/
def reshapeTest (result : Dict) : Except String (List (Option PVal)) :=
  match dlookup result "from" with
  | some f => .ok [some f]
  | none => .error "KeyError"

/-- Reshape a parse result into the positional tuple of
`extract_content_v1`/`v2` (`content_parser.py` lines 220-260 and
301-341).  The tuple is a `List (Option PVal)`. -/
def reshapeParts (service_type : String) (result : Dict) :
    Except String (List (Option PVal)) :=
  if service_type = "email" then reshapeEmail result
  else if service_type = "text" then reshapeText result
  else if service_type = "message" then reshapeMessage result
  else if service_type = "test" then reshapeTest result
  else .error "Invalid service_type. Must be 'email', 'text', 'message', or 'test'."

/-- `extract_content_v1(service_type, content)` (`content_parser.py`
lines 182-260). -/
def extract_content_v1 (service_type : String) (content : List Byte) :
    Except String (List (Option PVal)) :=
  match parse_payload content v1ExtractParsers with
  | .error e => .error e
  | .ok result => reshapeParts service_type result

/-- `extract_content_v2(service_type, content)` (`content_parser.py`
lines 263-341). -/
def extract_content_v2 (service_type : String) (content : List Byte) :
    Except String (List (Option PVal)) :=
  match parse_payload content v2ExtractParsers with
  | .error e => .error e
  | .ok result => reshapeParts service_type result

/-! ## C4: "message" tuple arity; C5: v0 email split policy -/

/-- C4 counterexample: for the v1 payload format, extracting content
for service type "message" on an all-zero 12-byte packed record
succeeds and returns a tuple of **5** positional fields
`(from, to, body, access_token, refresh_token)`, not 3. -/
theorem C4_counterexample :
    extract_content_v1 "message" (List.replicate 12 (0 : Byte))
      = .ok [some (.str ""), some (.str ""), some (.str ""), some (.str ""), some (.str "")]
  ∧ [some (PVal.str ""), some (.str ""), some (.str ""), some (.str ""),
     some (.str "")].length ≠ 3 :=
  ⟨by rfl, by decide⟩

/-- C4 (amended): the v0 "message" extractor returns a tuple of
exactly 3 positional fields, but the v1 and v2 "message" extractors
return tuples of exactly 5 positional fields
`(from, to, body, access_token, refresh_token)`. -/
theorem C4_message_arity :
    (∀ content parts, extract_content_v0 "message" content = .ok parts → parts.length = 3)
  ∧ (∀ content parts, extract_content_v1 "message" content = .ok parts → parts.length = 5)
  ∧ (∀ content parts, extract_content_v2 "message" content = .ok parts → parts.length = 5) := by
  have hmsg : ∀ result parts, reshapeMessage result = .ok parts → parts.length = 5 := by
    intro result parts h
    rw [reshapeMessage] at h
    split at h
    · simp only [Except.ok.injEq] at h
      subst h
      rfl
    · simp at h
  refine ⟨?_, ?_, ?_⟩
  · intro content parts h
    have h' : extractMessageV0 content = .ok parts := h
    rw [extractMessageV0] at h'
    split at h'
    · simp at h'
    · simp only [Except.ok.injEq] at h'
      subst h'
      rfl
  · intro content parts h
    rw [extract_content_v1] at h
    cases hp : parse_payload content v1ExtractParsers with
    | error e =>
      rw [hp] at h
      simp at h
    | ok result =>
      rw [hp] at h
      exact hmsg result parts h
  · intro content parts h
    rw [extract_content_v2] at h
    cases hp : parse_payload content v2ExtractParsers with
    | error e =>
      rw [hp] at h
      simp at h
    | ok result =>
      rw [hp] at h
      exact hmsg result parts h

/-- Witness for C4 (amended) on the v0 content `"x:y:z"`. -/
theorem C4_message_arity_witness :
    extract_content_v0 "message" "x:y:z" = .ok [some "x", some "y", some "z"]
  ∧ ([some "x", some "y", some "z"] : List (Option String)).length = 3 :=
  ⟨by rfl, (C4_message_arity).1 "x:y:z" [some "x", some "y", some "z"] (by rfl)⟩

/-- C5: v0 email extractor split policy: with exactly 6
colon-delimited fields the result is an 8-tuple whose access/refresh
token positions are `None`; with 7 or 8 fields the trailing one or two
fill the token positions; with fewer than 6 parts the extractor
returns no tuple and the minimum-6-parts error. -/
theorem C5_v0_email_split (content : String) (parts : List String)
    (hp : parts = pysplit content ':' 7) :
    (parts.length < 6 →
      extract_content_v0 "email" content =
        .error "Email content must have at least 6 parts.")
  ∧ (parts.length = 6 →
      extract_content_v0 "email" content =
        .ok [some (parts.getD 0 ""), some (parts.getD 1 ""), some (parts.getD 2 ""),
             some (parts.getD 3 ""), some (parts.getD 4 ""), some (parts.getD 5 ""),
             none, none])
  ∧ (parts.length = 7 →
      extract_content_v0 "email" content =
        .ok [some (parts.getD 0 ""), some (parts.getD 1 ""), some (parts.getD 2 ""),
             some (parts.getD 3 ""), some (parts.getD 4 ""), some (parts.getD 5 ""),
             some (parts.getD 6 ""), none])
  ∧ (parts.length = 8 →
      extract_content_v0 "email" content =
        .ok [some (parts.getD 0 ""), some (parts.getD 1 ""), some (parts.getD 2 ""),
             some (parts.getD 3 ""), some (parts.getD 4 ""), some (parts.getD 5 ""),
             some (parts.getD 6 ""), some (parts.getD 7 "")]) := by
  have hred : extract_content_v0 "email" content = extractEmailV0 content := rfl
  rw [hred, extractEmailV0, ← hp]
  refine ⟨?_, ?_, ?_, ?_⟩
  · intro hl
    rw [if_pos hl]
  · intro hl
    rw [if_neg (by omega)]
    rw [if_neg (by omega), if_neg (by omega)]
  · intro hl
    rw [if_neg (by omega)]
    rw [if_pos (by omega), if_neg (by omega)]
  · intro hl
    rw [if_neg (by omega)]
    rw [if_pos (by omega), if_pos (by omega)]

/-- Witness for C5 at `"a:b:c:d:e:f"` (exactly 6 fields). -/
theorem C5_v0_email_split_witness :
    extract_content_v0 "email" "a:b:c:d:e:f" =
      .ok [some "a", some "b", some "c", some "d", some "e", some "f", none, none] :=
  (C5_v0_email_split "a:b:c:d:e:f" (pysplit "a:b:c:d:e:f" ':' 7) rfl).2.1 (by rfl)


/-! ## Adapter registry (`platforms/adapter_manager.py`)

The filesystem is modelled explicitly: the adapters root is a list of
directory entries, each carrying the parse result of its
`manifest.ini` `[platform]` section (`none` when the file or section is
missing or unparsable, mirroring `_load_ini_file`); the isolated
runtime root is a list of existing virtual-environment directory
names.  `os` / `configparser` / `git` effects are represented as pure
state transitions; the MD5 content hash of `_calculate_directory_hash`
is modelled as an arbitrary deterministic function of the directory
state, which is all its callers rely on. -/

/-- Generic association-list lookup (string-keyed). -/
def alookup {α : Type} : List (String × α) → String → Option α
  | [], _ => none
  | (k, v) :: rest, key => if k = key then some v else alookup rest key

/-- Generic dict-semantics assignment (replace in place or append). -/
def ainsert {α : Type} : List (String × α) → String → α → List (String × α)
  | [], key, v => [(key, v)]
  | (k0, v0) :: rest, key, v =>
    if k0 = key then (key, v) :: rest else (k0, v0) :: ainsert rest key v

/-- Python `str.lower()` (character-wise lowering, structural so that
concrete runs reduce). -/
def pyLower (s : String) : String := String.mk (s.toList.map Char.toLower)

/-- One entry of the adapters directory as `_populate_registry` reads
it: its directory name, whether it is a directory, and the loaded
`[platform]` section of its `manifest.ini` (`none` if missing). -/
structure AdapterEntry where
  dirName : String
  isDir : Bool
  manifest : Option (List (String × String))
deriving DecidableEq, Repr

/-- A registry value: the manifest section plus the `path`,
`venv_path` and `assets_path` keys that `_populate_registry` adds. -/
structure RegEntry where
  data : List (String × String)
  path : String
  venv_path : String
  assets_path : String
deriving DecidableEq, Repr

/-- Python `f"{x}"` of an `Optional[str]` (`None` prints as "None"). -/
def pyFormatOpt : Option String → String
  | some s => s
  | none => "None"

/-- The scan loop of `_populate_registry` (`adapter_manager.py` lines
125-152): skip non-directories, entries with no loadable manifest, an
empty (falsy) section, or a missing/empty `name`; otherwise register
under `f"{name}_{protocol}".lower()` with the derived paths. -/
def scanAdapters : List AdapterEntry → List (String × RegEntry) → List (String × RegEntry)
  | [], reg => reg
  | e :: rest, reg =>
    if e.isDir then
      match e.manifest with
      | some md =>
        if md ≠ [] then
          match alookup md "name" with
          | some name =>
            if name ≠ "" then
              let protocol := pyLower ((alookup md "protocol_type").getD "")
              let key := pyLower (name ++ "_" ++ protocol)
              scanAdapters rest
                (ainsert reg key
                  ⟨md, "adapters/" ++ e.dirName, "adapters_venv/" ++ e.dirName,
                   "adapters_assets/" ++ e.dirName⟩)
            else scanAdapters rest reg
          | none => scanAdapters rest reg
        else scanAdapters rest reg
      | none => scanAdapters rest reg
    else scanAdapters rest reg

/-- The class-level state of `AdapterManager`: whether the adapters
directory exists, its entries, the in-memory `_registry`, and the
cached `_cache_hash`. -/
structure RegistryState where
  dirExists : Bool
  adapters : List AdapterEntry
  registry : List (String × RegEntry)
  cacheHash : Option String
deriving DecidableEq, Repr

/-- `_populate_registry` (`adapter_manager.py` lines 107-154) combined
with `_is_registry_outdated` (lines 68-80): create the adapters
directory if missing, recompute the content hash, return immediately
when it matches the cached hash, otherwise store the new hash, clear
the registry and rebuild it by scanning the directory.  `calcHash`
stands for `_calculate_directory_hash`, an arbitrary deterministic
function of the directory contents. -/
def populate_registry (calcHash : List AdapterEntry → String) (s : RegistryState) :
    RegistryState :=
  let s1 := if s.dirExists then s else { s with dirExists := true, adapters := [] }
  let current := calcHash s1.adapters
  if s1.cacheHash = some current then s1
  else { s1 with cacheHash := some current, registry := scanAdapters s1.adapters [] }

/-! ## C6: registry idempotence; C7: adapter-add rollback -/

/-- C6: registry population is idempotent: populating twice with no
change to the adapters directory recomputes the same content hash,
takes the up-to-date early return (the whole state, in particular the
in-memory registry map, is unchanged), so the registered entries are
identical. -/
theorem C6_populate_idempotent (calcHash : List AdapterEntry → String) (s : RegistryState) :
    populate_registry calcHash (populate_registry calcHash s) = populate_registry calcHash s
  ∧ (populate_registry calcHash s).cacheHash
      = some (calcHash (populate_registry calcHash s).adapters)
  ∧ (populate_registry calcHash (populate_registry calcHash s)).registry
      = (populate_registry calcHash s).registry := by
  rcases s with ⟨de, ad, reg, ch⟩
  have key : ∀ t : RegistryState, t.dirExists = true →
      t.cacheHash = some (calcHash t.adapters) →
      populate_registry calcHash t = t := by
    intro t hde hch
    rcases t with ⟨tde, tad, treg, tch⟩
    simp only at hde hch
    subst hde
    rw [populate_registry]
    simp [hch]
  have hfix : (populate_registry calcHash ⟨de, ad, reg, ch⟩).dirExists = true ∧
      (populate_registry calcHash ⟨de, ad, reg, ch⟩).cacheHash
        = some (calcHash (populate_registry calcHash ⟨de, ad, reg, ch⟩).adapters) := by
    rw [populate_registry]
    cases de <;> simp <;> split_ifs <;> simp_all
  have hidem := key _ hfix.1 hfix.2
  exact ⟨hidem, hfix.2, by rw [hidem]⟩

/-- The content of a cloned adapter repository: which required files
it contains, the parse result of its `manifest.ini` `[platform]`
section, and whether it ships a `requirements.txt`. -/
structure RepoContent where
  hasManifest : Bool
  hasMain : Bool
  hasConfig : Bool
  manifestSection : Option (List (String × String))
  hasRequirements : Bool
deriving DecidableEq, Repr

/-- The on-disk state touched by `add_adapter_from_github`: the
adapters root (directory name to content) and the isolated runtime
root (existing venv directory names). -/
structure PlatformsFS where
  adapters : List (String × RepoContent)
  venvs : List String
deriving DecidableEq, Repr

/-- Remove every entry with the given key (directory deletion). -/
def removeKey {α : Type} : List (String × α) → String → List (String × α)
  | [], _ => []
  | (k0, v0) :: rest, k =>
    if k0 = k then removeKey rest k else (k0, v0) :: removeKey rest k

/-- Remove every occurrence of a string (directory deletion). -/
def removeStr : List String → String → List String
  | [], _ => []
  | s :: rest, x => if s = x then removeStr rest x else s :: removeStr rest x

/-- `shutil.rmtree` of an adapter directory (`_rollback_directory`). -/
def removeAdapterDir (fs : PlatformsFS) (name : String) : PlatformsFS :=
  { fs with adapters := removeKey fs.adapters name }

/-- `shutil.rmtree` of a venv directory (`_rollback_directory`). -/
def removeVenvDir (fs : PlatformsFS) (name : String) : PlatformsFS :=
  { fs with venvs := removeStr fs.venvs name }

/-- `_load_ini_file(manifest_path, "platform")` followed by the
`if not manifest_data` falsiness test of `add_adapter_from_github`
line 313: `none` when the file is missing, unparsable, or the section
is empty. -/
def loadedManifest (repo : RepoContent) : Option (List (String × String)) :=
  match (if repo.hasManifest then repo.manifestSection else none) with
  | some md => if md = [] then none else some md
  | none => none

/-- The canonical `f"{adapter_name}_{protocol}".lower()` directory
name (`protocol` may be absent, printing as `"None"`). -/
def adapterNewDirName (md : List (String × String)) : String :=
  pyLower (((alookup md "name").getD "") ++ "_" ++ pyFormatOpt (alookup md "protocol_type"))

/-- `add_adapter_from_github(url)` (`adapter_manager.py` lines
264-353) as a state transition on `PlatformsFS`, returning the new
state and the raised `ValueError` message if any.  `repoName` is the
repository name derived from the URL, `repo` the cloned content,
`installOk` the outcome of `pip install` in
`_install_adapter_dependencies`. -/
def add_adapter_from_github (repoName : String) (repo : RepoContent) (installOk : Bool)
    (fs : PlatformsFS) : PlatformsFS × Option String :=
  if (alookup fs.adapters repoName).isSome then (fs, none)
  else
    let fs1 : PlatformsFS := { fs with adapters := (repoName, repo) :: fs.adapters }
    if ¬(repo.hasManifest = true ∧ repo.hasMain = true ∧ repo.hasConfig = true) then
      (removeAdapterDir fs1 repoName,
       some ("Invalid adapter structure at '" ++ repoName ++ "'."))
    else
      match loadedManifest repo with
      | none =>
        (removeAdapterDir fs1 repoName, some ("Manifest load failed for '" ++ repoName ++ "'."))
      | some md =>
        if (alookup md "name") = none ∨ (alookup md "name") = some "" then
          (removeAdapterDir fs1 repoName, some "Adapter manifest missing 'name'.")
        else
          let newDirName := adapterNewDirName md
          if (alookup fs1.adapters newDirName).isSome then
            (removeAdapterDir fs1 repoName,
             some ("Adapter '" ++ newDirName ++ "' already exists."))
          else
            let fs2 : PlatformsFS :=
              { fs1 with adapters :=
                  (newDirName, repo) :: removeKey fs1.adapters repoName }
            if repo.hasRequirements = false then (fs2, none)
            else if newDirName ∈ fs2.venvs then
              (fs2, some ("Virtual environment already exists: " ++ newDirName))
            else
              let fs3 : PlatformsFS := { fs2 with venvs := newDirName :: fs2.venvs }
              if installOk then (fs3, none)
              else
                (removeVenvDir (removeAdapterDir fs3 newDirName) newDirName,
                 some "Adapter dependency installation failed.")

lemma alookup_none_keys {α : Type} (l : List (String × α)) (k : String)
    (h : alookup l k = none) : ∀ e ∈ l, e.1 ≠ k := by
  induction l with
  | nil => simp
  | cons kv rest ih =>
    obtain ⟨k0, v0⟩ := kv
    by_cases hk : k0 = k
    · simp [alookup, hk] at h
    · have h' : alookup rest k = none := by simpa [alookup, hk] using h
      intro e he
      rcases List.mem_cons.mp he with rfl | hm
      · exact hk
      · exact ih h' e hm

lemma removeKey_of_alookup_none {α : Type} (l : List (String × α)) (k : String)
    (h : alookup l k = none) : removeKey l k = l := by
  induction l with
  | nil => rfl
  | cons kv rest ih =>
    obtain ⟨k0, v0⟩ := kv
    by_cases hk : k0 = k
    · simp [alookup, hk] at h
    · have h' : alookup rest k = none := by simpa [alookup, hk] using h
      simp [removeKey, hk, ih h']

lemma removeStr_of_not_mem (l : List String) (x : String) (h : x ∉ l) :
    removeStr l x = l := by
  induction l with
  | nil => rfl
  | cons a rest ih =>
    have hax : a ≠ x := fun he => h (he ▸ List.mem_cons_self a rest)
    have h' : x ∉ rest := fun hm => h (List.mem_cons_of_mem a hm)
    simp [removeStr, hax, ih h']

/-- C7 (amended): each of the claim's five enumerated failure modes
of `add_adapter_from_github` (missing required files, manifest load
failure, manifest missing name, canonical directory-name collision,
dependency installation failure) rolls the filesystem back to exactly
the initial state and raises; but not **every** failure at any step
does so — see the counterexample for the venv-already-exists failure,
which leaves the renamed adapter directory on disk. -/
theorem C7_add_adapter_rollback (repoName : String) (repo : RepoContent)
    (installOk : Bool) (fs : PlatformsFS)
    (hfresh : alookup fs.adapters repoName = none)
    (hfail :
      (¬(repo.hasManifest = true ∧ repo.hasMain = true ∧ repo.hasConfig = true))
      ∨ ((repo.hasManifest = true ∧ repo.hasMain = true ∧ repo.hasConfig = true)
          ∧ loadedManifest repo = none)
      ∨ ((repo.hasManifest = true ∧ repo.hasMain = true ∧ repo.hasConfig = true)
          ∧ ∃ md, loadedManifest repo = some md
            ∧ (alookup md "name" = none ∨ alookup md "name" = some ""))
      ∨ ((repo.hasManifest = true ∧ repo.hasMain = true ∧ repo.hasConfig = true)
          ∧ ∃ md, loadedManifest repo = some md
            ∧ ¬(alookup md "name" = none ∨ alookup md "name" = some "")
            ∧ (alookup ((repoName, repo) :: fs.adapters) (adapterNewDirName md)).isSome)
      ∨ ((repo.hasManifest = true ∧ repo.hasMain = true ∧ repo.hasConfig = true)
          ∧ ∃ md, loadedManifest repo = some md
            ∧ ¬(alookup md "name" = none ∨ alookup md "name" = some "")
            ∧ alookup ((repoName, repo) :: fs.adapters) (adapterNewDirName md) = none
            ∧ repo.hasRequirements = true
            ∧ adapterNewDirName md ∉ fs.venvs
            ∧ installOk = false)) :
    (add_adapter_from_github repoName repo installOk fs).1 = fs
  ∧ ((add_adapter_from_github repoName repo installOk fs).2).isSome := by
  have hrk : removeKey ((repoName, repo) :: fs.adapters) repoName = fs.adapters := by
    rw [removeKey, if_pos rfl]
    exact removeKey_of_alookup_none fs.adapters repoName hfresh
  have hrb : removeAdapterDir
      { fs with adapters := (repoName, repo) :: fs.adapters } repoName = fs := by
    simp [removeAdapterDir, hrk]
  rw [add_adapter_from_github]
  rw [if_neg (by simp [hfresh])]
  rcases hfail with hA | ⟨hfiles, hB⟩ | ⟨hfiles, md, hmd, hC⟩
    | ⟨hfiles, md, hmd, hname, hD⟩ | ⟨hfiles, md, hmd, hname, hfreshNew, hreq, hvenv, hinst⟩
  · rw [if_pos hA]
    exact ⟨hrb, by simp⟩
  · rw [if_neg (not_not_intro hfiles)]
    simp only [hB]
    exact ⟨hrb, by simp⟩
  · rw [if_neg (not_not_intro hfiles)]
    simp only [hmd]
    rw [if_pos hC]
    exact ⟨hrb, by simp⟩
  · rw [if_neg (not_not_intro hfiles)]
    simp only [hmd]
    rw [if_neg hname]
    rw [if_pos hD]
    exact ⟨hrb, by simp⟩
  · rw [if_neg (not_not_intro hfiles)]
    simp only [hmd]
    rw [if_neg hname]
    rw [if_neg (by simp [hfreshNew])]
    have hne : repoName ≠ adapterNewDirName md := by
      intro he
      rw [alookup, if_pos he] at hfreshNew
      cases hfreshNew
    have htail : alookup fs.adapters (adapterNewDirName md) = none := by
      rw [alookup, if_neg hne] at hfreshNew
      exact hfreshNew
    rw [if_neg (by simp [hreq])]
    rw [if_neg ?hv]
    case hv =>
      simpa using hvenv
    rw [if_neg (by simp [hinst])]
    refine ⟨?_, by simp⟩
    simp only [removeAdapterDir, removeVenvDir, hrk]
    rw [removeKey, if_pos rfl, removeKey_of_alookup_none fs.adapters (adapterNewDirName md) htail]
    rw [removeStr, if_pos rfl, removeStr_of_not_mem fs.venvs (adapterNewDirName md) hvenv]

/-- C7 counterexample to full atomicity: when `requirements.txt` is
present and the target virtual-environment directory already exists,
`add_adapter_from_github` raises `ValueError` **after** renaming the
staged clone to its canonical directory name and deletes nothing
(`adapter_manager.py` lines 337-338 raise without `_rollback_directory`),
so the renamed adapter directory remains on disk. -/
theorem C7_counterexample :
    (add_adapter_from_github "repo"
        ⟨true, true, true, some [("name", "gmail"), ("protocol_type", "oauth2")], true⟩ true
        ⟨[], ["gmail_oauth2"]⟩).2
      = some ("Virtual environment already exists: " ++ "gmail_oauth2")
  ∧ (add_adapter_from_github "repo"
        ⟨true, true, true, some [("name", "gmail"), ("protocol_type", "oauth2")], true⟩ true
        ⟨[], ["gmail_oauth2"]⟩).1.adapters
      = [("gmail_oauth2",
          ⟨true, true, true, some [("name", "gmail"), ("protocol_type", "oauth2")], true⟩)]
  ∧ ([("gmail_oauth2",
       (⟨true, true, true, some [("name", "gmail"), ("protocol_type", "oauth2")], true⟩ :
         RepoContent))] : List (String × RepoContent)) ≠ [] := by
  refine ⟨by rfl, by rfl, by simp⟩

/-- Witness for C7 (amended): the missing-required-files failure on an
empty filesystem rolls back to the initial state. -/
theorem C7_add_adapter_rollback_witness :
    (add_adapter_from_github "repo" ⟨false, false, false, none, false⟩ true ⟨[], []⟩).1
      = (⟨[], []⟩ : PlatformsFS)
  ∧ ((add_adapter_from_github "repo" ⟨false, false, false, none, false⟩ true ⟨[], []⟩).2).isSome :=
  C7_add_adapter_rollback "repo" ⟨false, false, false, none, false⟩ true ⟨[], []⟩ rfl
    (Or.inl (by simp))


/-! ## Adapter invocation channel (`platforms/adapter_ipc_handler.py`)

The response-classification logic of `AdapterIPCHandler.invoke` (lines
71-99) is a pure function of the subprocess outcome (exit code,
standard output, standard error).  `json.loads` is modelled by a
fueled recursive-descent parser over the exact `json.loads` grammar:
numbers follow `-?(0|[1-9][0-9]*)(\.[0-9]+)?([eE][+-]?[0-9]+)?` with
the `NaN`/`Infinity`/`-Infinity` constants `json.loads` accepts by
default; integer literals yield `.num`, while fraction/exponent forms
and the constants yield `.float`/`.nan`/`.infinity` carrying the
literal (their numeric value is never consumed by `invoke`, so no
floating-point semantics are needed); strings reject unescaped control
characters and combine `\uXXXX` surrogate pairs; objects have
last-key-wins dict semantics. -/

/-- A parsed JSON value.  A `float` carries its source literal: Python
represents it as a `float` object, but `invoke` only ever passes such
values through verbatim, so the literal is a faithful stand-in.  A
lone `\uXXXX` surrogate (which `json.loads` keeps as an unpaired
surrogate character) is outside Lean's `Char` range and decodes to the
`Char.ofNat` fallback; this affects only the character content of
string values, never parse success. -/
inductive JVal where
  | null
  | bool (b : Bool)
  | num (n : Int)
  | float (lit : String)
  | nan
  | infinity (neg : Bool)
  | str (s : String)
  | arr (xs : List JVal)
  | obj (fields : List (String × JVal))

/-- The opening/closing brace characters. -/
def lbrace : Char := Char.ofNat 123

/-- See `lbrace`. -/
def rbrace : Char := Char.ofNat 125

/-- JSON insignificant whitespace. -/
def jsonWs (c : Char) : Bool :=
  c = ' ' ∨ c = '\t' ∨ c = '\n' ∨ c = '\r'

/-- Skip insignificant whitespace. -/
def skipWs (cs : List Char) : List Char := cs.dropWhile jsonWs

/-- The numeric value of a hexadecimal digit. -/
def hexVal (c : Char) : Option Nat :=
  if '0' ≤ c ∧ c ≤ '9' then some (c.toNat - 48)
  else if 'a' ≤ c ∧ c ≤ 'f' then some (c.toNat - 87)
  else if 'A' ≤ c ∧ c ≤ 'F' then some (c.toNat - 70)
  else none

/-- The numeric value of a decimal digit. -/
def digitVal (c : Char) : Option Nat :=
  if '0' ≤ c ∧ c ≤ '9' then some (c.toNat - 48) else none

/-- Parse the body of a JSON string literal (after the opening quote),
as `json.loads` does: the standard escape sequences, `\uXXXX` escapes
with surrogate-pair combination (a high surrogate followed by a
low-surrogate escape forms one code point; otherwise the escape stands
alone), and rejection of unescaped control characters (code points
below 0x20).  Fuel-based so that concrete runs reduce. -/
def parseJStr : Nat → List Char → List Char → Option (List Char × List Char)
  | 0, _, _ => none
  | _ + 1, _, [] => none
  | fuel + 1, acc, c :: rest =>
    if c = '"' then some (acc.reverse, rest)
    else if c = '\\' then
      match rest with
      | [] => none
      | e :: rest' =>
        if e = '"' then parseJStr fuel ('"' :: acc) rest'
        else if e = '\\' then parseJStr fuel ('\\' :: acc) rest'
        else if e = '/' then parseJStr fuel ('/' :: acc) rest'
        else if e = 'b' then parseJStr fuel (Char.ofNat 8 :: acc) rest'
        else if e = 'f' then parseJStr fuel (Char.ofNat 12 :: acc) rest'
        else if e = 'n' then parseJStr fuel ('\n' :: acc) rest'
        else if e = 'r' then parseJStr fuel ('\r' :: acc) rest'
        else if e = 't' then parseJStr fuel ('\t' :: acc) rest'
        else if e = 'u' then
          match rest' with
          | h1 :: h2 :: h3 :: h4 :: rest2 =>
            match hexVal h1, hexVal h2, hexVal h3, hexVal h4 with
            | some a, some b, some c3, some d =>
              let u := a * 4096 + b * 256 + c3 * 16 + d
              if 0xD800 ≤ u ∧ u ≤ 0xDBFF then
                match rest2 with
                | '\\' :: 'u' :: g1 :: g2 :: g3 :: g4 :: rest3 =>
                  match hexVal g1, hexVal g2, hexVal g3, hexVal g4 with
                  | some a2, some b2, some c4, some d2 =>
                    let u2 := a2 * 4096 + b2 * 256 + c4 * 16 + d2
                    if 0xDC00 ≤ u2 ∧ u2 ≤ 0xDFFF then
                      parseJStr fuel
                        (Char.ofNat (0x10000 + (u - 0xD800) * 1024 + (u2 - 0xDC00)) :: acc)
                        rest3
                    else parseJStr fuel (Char.ofNat u :: acc) rest2
                  | _, _, _, _ => parseJStr fuel (Char.ofNat u :: acc) rest2
                | _ => parseJStr fuel (Char.ofNat u :: acc) rest2
              else parseJStr fuel (Char.ofNat u :: acc) rest2
            | _, _, _, _ => none
          | _ => none
        else none
    else if c.toNat < 32 then none
    else parseJStr fuel (c :: acc) rest

/-- Consume a maximal run of decimal digits. -/
def takeDigits : Nat → List Char → List Char × List Char
  | 0, cs => ([], cs)
  | fuel + 1, cs =>
    match cs with
    | [] => ([], cs)
    | c :: rest =>
      if (digitVal c).isSome then
        match takeDigits fuel rest with
        | (ds, r) => (c :: ds, r)
      else ([], cs)

/-- The natural number denoted by a digit run. -/
def digitsToNat (ds : List Char) : Nat :=
  ds.foldl (fun a c => a * 10 + (c.toNat - 48)) 0

/-- Parse a JSON number at the head of `cs`, per the `json.loads`
number grammar `-?(0|[1-9][0-9]*)(\.[0-9]+)?([eE][+-]?[0-9]+)?`: the
integer part stops after a leading `0` (so `042` leaves `42` behind,
failing exactly where `json.loads` reports extra data or a missing
delimiter); a fraction or exponent with no digits fails; a pure
integer yields `.num`, any fraction/exponent form yields `.float`
carrying the consumed literal. -/
def parseNumber (fuel : Nat) (cs : List Char) : Option (JVal × List Char) :=
  let state1 :=
    match cs with
    | '-' :: r => (true, r)
    | _ => (false, cs)
  match state1 with
  | (neg, cs1) =>
    match cs1 with
    | [] => none
    | c :: rest =>
      match digitVal c with
      | none => none
      | some _ =>
        let state2 :=
          if c = '0' then ([c], rest)
          else
            match takeDigits fuel rest with
            | (ds, r) => (c :: ds, r)
        match state2 with
        | (intDigits, cs2) =>
          let fracRes : Option (Bool × List Char) :=
            match cs2 with
            | '.' :: r =>
              match takeDigits fuel r with
              | ([], _) => none
              | (_ :: _, r2) => some (true, r2)
            | _ => some (false, cs2)
          match fracRes with
          | none => none
          | some (hasFrac, cs3) =>
            let expRes : Option (Bool × List Char) :=
              match cs3 with
              | [] => some (false, cs3)
              | e :: r =>
                if e = 'e' ∨ e = 'E' then
                  let r1 :=
                    match r with
                    | s :: r0 => if s = '+' ∨ s = '-' then r0 else r
                    | [] => r
                  match takeDigits fuel r1 with
                  | ([], _) => none
                  | (_ :: _, r2) => some (true, r2)
                else some (false, cs3)
            match expRes with
            | none => none
            | some (hasExp, cs4) =>
              if hasFrac ∨ hasExp then
                some (.float (String.mk (cs.take (cs.length - cs4.length))), cs4)
              else
                let n : Int := Int.ofNat (digitsToNat intDigits)
                some (.num (if neg then -n else n), cs4)

/-- The mode of the single fueled JSON parsing loop: a value, the item
loop of an array, or the member loop of an object. -/
inductive JMode where
  | value
  | arrItems (acc : List JVal)
  | objItems (acc : List (String × JVal))

/-- Fueled recursive-descent JSON parser (one function so that the
recursion is structural on the fuel and concrete runs reduce).
Object members accumulate with dict assignment semantics (a repeated
key overwrites in place, as `dict(pairs)` does for `json.loads`). -/
def parseJ : Nat → JMode → List Char → Option (JVal × List Char)
  | 0, _, _ => none
  | fuel + 1, .value, cs =>
    match skipWs cs with
    | [] => none
    | c :: rest =>
      if c = 'n' then
        match rest with
        | 'u' :: 'l' :: 'l' :: r => some (.null, r)
        | _ => none
      else if c = 't' then
        match rest with
        | 'r' :: 'u' :: 'e' :: r => some (.bool true, r)
        | _ => none
      else if c = 'f' then
        match rest with
        | 'a' :: 'l' :: 's' :: 'e' :: r => some (.bool false, r)
        | _ => none
      else if c = 'N' then
        match rest with
        | 'a' :: 'N' :: r => some (.nan, r)
        | _ => none
      else if c = 'I' then
        match rest with
        | 'n' :: 'f' :: 'i' :: 'n' :: 'i' :: 't' :: 'y' :: r => some (.infinity false, r)
        | _ => none
      else if c = '"' then
        (parseJStr fuel [] rest).map (fun pr => (.str (String.mk pr.1), pr.2))
      else if c = '-' then
        match rest with
        | 'I' :: 'n' :: 'f' :: 'i' :: 'n' :: 'i' :: 't' :: 'y' :: r =>
          some (.infinity true, r)
        | _ => parseNumber fuel (c :: rest)
      else if (digitVal c).isSome then parseNumber fuel (c :: rest)
      else if c = '[' then
        match skipWs rest with
        | ']' :: r => some (.arr [], r)
        | r => parseJ fuel (.arrItems []) r
      else if c = lbrace then
        match skipWs rest with
        | r0 :: r =>
          if r0 = rbrace then some (.obj [], r)
          else parseJ fuel (.objItems []) (r0 :: r)
        | [] => none
      else none
  | fuel + 1, .arrItems acc, cs =>
    match parseJ fuel .value cs with
    | none => none
    | some (v, rest) =>
      match skipWs rest with
      | ',' :: r => parseJ fuel (.arrItems (v :: acc)) r
      | ']' :: r => some (.arr (v :: acc).reverse, r)
      | _ => none
  | fuel + 1, .objItems acc, cs =>
    match skipWs cs with
    | '"' :: rest =>
      match parseJStr fuel [] rest with
      | none => none
      | some (key, rest1) =>
        match skipWs rest1 with
        | ':' :: restv =>
          match parseJ fuel .value restv with
          | none => none
          | some (v, rest2) =>
            match skipWs rest2 with
            | ',' :: r => parseJ fuel (.objItems (ainsert acc (String.mk key) v)) r
            | r0 :: r =>
              if r0 = rbrace then some (.obj (ainsert acc (String.mk key) v), r)
              else none
            | [] => none
        | _ => none
    | _ => none

/-- `json.loads(s)`: parse one JSON value and require only whitespace
after it. -/
def parseJson (s : String) : Option JVal :=
  match parseJ (2 * s.toList.length + 2) .value s.toList with
  | some (v, rest) => if skipWs rest = [] then some v else none
  | none => none

/-- Python whitespace for `str.strip()`. -/
def pyWs (c : Char) : Bool :=
  c = ' ' ∨ c = '\t' ∨ c = '\n' ∨ c = '\r' ∨ c = Char.ofNat 11 ∨ c = Char.ofNat 12

/-- Python `s.strip()`. -/
def pyStrip (s : String) : String :=
  String.mk (((s.toList.dropWhile pyWs).reverse.dropWhile pyWs).reverse)

/-- Python `response.get(k)` on a parsed JSON object: `None` both for
a missing key and for an explicit JSON `null` value (`json.loads` maps
`null` to `None`). -/
def jGet (fields : List (String × JVal)) (k : String) : Option JVal :=
  match alookup fields k with
  | some .null => none
  | some v => some v
  | none => none

/-- The `result`/`error` pair returned by `AdapterIPCHandler.invoke`
(`none` models Python `None`). -/
structure IPCResponse where
  result : Option JVal
  error : Option JVal

/-- The response classification of `AdapterIPCHandler.invoke`
(`adapter_ipc_handler.py` lines 71-99) as a function of the subprocess
outcome: nonzero exit raises `RuntimeError` with the stderr text;
empty (or whitespace) stdout returns the no-response error pair;
unparsable stdout returns the invalid-JSON error pair carrying the
stripped output; a JSON object returns its `result`/`error` fields
verbatim; any other JSON value raises (`response.get` on a non-dict is
an `AttributeError`, re-raised by the final `except`). -/
def invoke_classify (returncode : Int) (stdout stderr : String) :
    Except String IPCResponse :=
  if returncode ≠ 0 then
    .error ("Adapter subprocess exited with error:\n" ++ pyStrip stderr)
  else if pyStrip stdout = "" then
    .ok ⟨none, some (.str "No response from adapter.")⟩
  else
    match parseJson (pyStrip stdout) with
    | none => .ok ⟨none, some (.str ("Invalid JSON from adapter: " ++ pyStrip stdout))⟩
    | some (.obj fields) => .ok ⟨jGet fields "result", jGet fields "error"⟩
    | some _ => .error "AttributeError"

/-! ## C8: adapter invocation-channel response classification -/

/-- C8 (amended): for an adapter subprocess exiting with code 0:
empty-or-whitespace stdout yields `{result: None, error: "No response
from adapter."}` without raising; stdout that is not valid JSON yields
result `None` and an error string carrying the (stripped) raw output;
stdout parsing to a JSON **object** yields its `result`/`error` fields
verbatim; but stdout parsing to any non-object JSON value makes
`invoke` raise (`AttributeError` from `response.get`) instead of
returning — see the counterexample. -/
theorem C8_invoke_classification (stdout stderr : String) :
    (pyStrip stdout = "" →
      invoke_classify 0 stdout stderr = .ok ⟨none, some (.str "No response from adapter.")⟩)
  ∧ (pyStrip stdout ≠ "" → parseJson (pyStrip stdout) = none →
      invoke_classify 0 stdout stderr
        = .ok ⟨none, some (.str ("Invalid JSON from adapter: " ++ pyStrip stdout))⟩)
  ∧ (∀ fields, pyStrip stdout ≠ "" → parseJson (pyStrip stdout) = some (.obj fields) →
      invoke_classify 0 stdout stderr = .ok ⟨jGet fields "result", jGet fields "error"⟩)
  ∧ (∀ v, pyStrip stdout ≠ "" → parseJson (pyStrip stdout) = some v →
      (∀ fields, v ≠ .obj fields) →
      invoke_classify 0 stdout stderr = .error "AttributeError") := by
  refine ⟨?_, ?_, ?_, ?_⟩
  · intro h
    rw [invoke_classify, if_neg (by simp), if_pos h]
  · intro h hp
    rw [invoke_classify, if_neg (by simp), if_neg h, hp]
  · intro fields h hp
    rw [invoke_classify, if_neg (by simp), if_neg h, hp]
  · intro v h hp hno
    rw [invoke_classify, if_neg (by simp), if_neg h, hp]
    match v, hno with
    | .null, _ => rfl
    | .bool b, _ => rfl
    | .num n, _ => rfl
    | .float s, _ => rfl
    | .nan, _ => rfl
    | .infinity b, _ => rfl
    | .str s, _ => rfl
    | .arr xs, _ => rfl
    | .obj fields, hno => exact absurd rfl (hno fields)

/-- C8 counterexample to the claim as stated: `"42"` is valid JSON,
yet `invoke` raises `AttributeError` (propagated by the final
`except Exception: process.kill(); raise`) rather than returning the
parsed result/error pair. -/
theorem C8_counterexample :
    parseJson "42" = some (.num 42)
  ∧ invoke_classify 0 "42" "" = .error "AttributeError" :=
  ⟨rfl, rfl⟩

/-- Witness for C8 on whitespace-only output and on a well-formed
object response. -/
theorem C8_invoke_classification_witness :
    invoke_classify 0 "  \t" "x" = .ok ⟨none, some (.str "No response from adapter.")⟩
  ∧ invoke_classify 0 "\x7b\"result\": 1, \"error\": null\x7d" "" =
      .ok ⟨jGet [("result", .num 1), ("error", .null)] "result",
           jGet [("result", .num 1), ("error", .null)] "error"⟩ :=
  ⟨(C8_invoke_classification "  \t" "x").1 rfl,
   (C8_invoke_classification "\x7b\"result\": 1, \"error\": null\x7d" "").2.2.1
     [("result", .num 1), ("error", .null)] (by decide) rfl⟩


/-! ## Publication orchestrator (`grpc_publisher_service.py`)

`PublishContent` and its nested helpers are modelled as pure functions
of the request plus the outcomes of the external collaborators (vault
RPCs, adapter subprocess).  Stored-token side effects are tracked
explicitly (`updateCalled`/`updateArg`); notification dispatch is
tracked as the list of notifications handed to
`dispatch_notifications`. -/

/-- Python truthiness of an `Optional[str]`. -/
def truthyOpt : Option String → Bool
  | some s => s ≠ ""
  | none => false

/-- Python `l[i]` (an `IndexError` when out of range). -/
def pyIndex {α : Type} (l : List α) (i : Nat) : Except String α :=
  match l.get? i with
  | some v => .ok v
  | none => .error "IndexError"

/-- The fields of the `service_handlers` data mapping of
`handle_oauth2_publication` (lines 630-648) that its subsequent
control flow reads: `sender_id` (= parts[0]) and the in-band
`access_token`/`refresh_token` (email: parts[6]/parts[7]; text:
parts[2]/parts[3]).  The remaining positional fields are passed
through to the adapter unchanged and do not influence the
token-update logic. -/
structure OAuthData where
  sender_id : Option String
  access_token : Option String
  refresh_token : Option String
deriving DecidableEq, Repr

/-- Build the oauth2 handler's data record: an unsupported service
type raises `NotImplementedError` (lines 650-654); tuple indexing
raises `IndexError` when out of range. -/
def oauthData (service_type : String) (parts : List (Option String)) :
    Except String OAuthData :=
  if service_type = "email" then do
    let s ← pyIndex parts 0
    let _ ← pyIndex parts 1
    let _ ← pyIndex parts 2
    let _ ← pyIndex parts 3
    let _ ← pyIndex parts 4
    let _ ← pyIndex parts 5
    let a ← pyIndex parts 6
    let r ← pyIndex parts 7
    .ok ⟨s, a, r⟩
  else if service_type = "text" then do
    let s ← pyIndex parts 0
    let _ ← pyIndex parts 1
    let a ← pyIndex parts 2
    let r ← pyIndex parts 3
    .ok ⟨s, a, r⟩
  else .error "NotImplementedError"

/-- `user_sent_tokens = bool(data["access_token"] and data["refresh_token"])`. -/
def userSentTokens (d : OAuthData) : Bool :=
  truthyOpt d.access_token && truthyOpt d.refresh_token

/-- The fields of the adapter's `send_message` result that
`handle_oauth2_publication` reads: `refreshed_token` (a token mapping,
empty when absent), `success` (truthiness of `result.get("success")`)
and `message`. -/
structure SendResult where
  refreshedToken : List (String × String)
  success : Bool
  message : Option String
deriving DecidableEq, Repr

/-- The `{result, error}` pair returned by the adapter invocation, as
the oauth2 handler consumes it: `error` is checked for truthiness
(line 703); a present-but-`None` result makes `result.get(...)` raise
`AttributeError` (line 706-707). -/
structure PipeModel where
  error : Option String
  result : Option SendResult
deriving DecidableEq, Repr

/-- Base64 alphabet. -/
def b64char (n : Nat) : Char :=
  ("ABCDEFGHIJKLMNOPQRSTUVWXYZabcdefghijklmnopqrstuvwxyz0123456789+/".toList).getD n '='

/-- Base64 encoding of a byte list (with padding). -/
def b64encodeBytes : List Nat → List Char
  | [] => []
  | [a] => [b64char (a / 4), b64char (a % 4 * 16), '=', '=']
  | [a, b] => [b64char (a / 4), b64char (a % 4 * 16 + b / 16), b64char (b % 16 * 4), '=']
  | a :: b :: c :: rest =>
    b64char (a / 4) :: b64char (a % 4 * 16 + b / 16) :: b64char (b % 16 * 4 + c / 64)
      :: b64char (c % 64) :: b64encodeBytes rest

/-- Python `f"{x}"` then `.encode()` then base64: the refresh-alert
text of lines 714-718. -/
def mkRefreshAlert (sender newTok : Option String) : String :=
  "\n\nPlease paste this message in your RelaySMS app\n"
    ++ String.mk (b64encodeBytes
        (((pyFormatOpt sender ++ ":" ++ pyFormatOpt newTok).toUTF8.toList).map UInt8.toNat))

/-- How a run of `handle_oauth2_publication` terminated. -/
inductive OAuth2Outcome where
  | raised (msg : String)
  | responded
  | errored (e : String)
  | sent (error : Option String) (refresh_alert : Option String)
deriving DecidableEq, Repr

/-- A run of `handle_oauth2_publication` together with its
stored-credential side effect: whether `handle_token_update` (hence
`update_entity_token`) was invoked, and with which token. -/
structure OAuth2Run where
  outcome : OAuth2Outcome
  updateCalled : Bool
  updateArg : Option (List (String × String))
deriving DecidableEq, Repr

/-- `handle_oauth2_publication` (`grpc_publisher_service.py` lines
627-734) as a function of the extracted content parts and the
collaborator outcomes: `adapter` is the registry lookup, `tokenFetch`
the vault access-token fetch (`.error` when it produced an error
response), `pipe` the adapter invocation result.  Lines 720-727 invoke
`handle_token_update` with the adapter's `refreshed_token` exactly
when `user_sent_tokens` is false. -/
def handle_oauth2_publication (service_type : String)
    (parts : List (Option String)) (adapter : Option String)
    (tokenFetch : Except Unit (List (String × String))) (pipe : PipeModel) :
    OAuth2Run :=
  match oauthData service_type parts with
  | .error e => ⟨.raised e, false, none⟩
  | .ok data =>
    match adapter with
    | none => ⟨.raised "NotImplementedError", false, none⟩
    | some _ =>
      match tokenFetch with
      | .error _ => ⟨.responded, false, none⟩
      | .ok _ =>
        if truthyOpt pipe.error then ⟨.errored (pipe.error.getD ""), false, none⟩
        else
          match pipe.result with
          | none => ⟨.raised "AttributeError", false, none⟩
          | some result =>
            let newRefresh := alookup result.refreshedToken "refresh_token"
            let isUpdated := newRefresh ≠ data.refresh_token
            let alert :=
              if isUpdated ∧ userSentTokens data = true then
                some (mkRefreshAlert data.sender_id newRefresh)
              else none
            if userSentTokens data = false then
              ⟨.sent (if result.success then none else result.message) alert,
               true, some result.refreshedToken⟩
            else
              ⟨.sent (if result.success then none else result.message) alert,
               false, none⟩

/-! ## C9: oauth2 token-update frame property -/

/-- C9: in every oauth2 publication run whose extracted content
carries both an in-band access and refresh token, the stored
credential is not rewritten (`update_entity_token` is not invoked);
whenever the update **is** invoked, the content carried no in-band
token pair, the adapter send reported no channel error, and the update
argument is the adapter's `refreshed_token`; and in a run that reaches
a successful send with no in-band token pair, the update is invoked. -/
theorem C9_oauth2_token_frame (service_type : String)
    (parts : List (Option String)) (adapter : Option String)
    (tokenFetch : Except Unit (List (String × String))) (pipe : PipeModel)
    (data : OAuthData) (hdata : oauthData service_type parts = .ok data) :
    (userSentTokens data = true →
      (handle_oauth2_publication service_type parts adapter tokenFetch pipe).updateCalled
        = false
      ∧ (handle_oauth2_publication service_type parts adapter tokenFetch pipe).updateArg
        = none)
  ∧ ((handle_oauth2_publication service_type parts adapter tokenFetch pipe).updateCalled
        = true →
      userSentTokens data = false
      ∧ truthyOpt pipe.error = false
      ∧ ∃ result, pipe.result = some result
          ∧ (handle_oauth2_publication service_type parts adapter tokenFetch pipe).updateArg
              = some result.refreshedToken)
  ∧ (∀ ap tok result, adapter = some ap → tokenFetch = .ok tok →
      userSentTokens data = false → truthyOpt pipe.error = false →
      pipe.result = some result →
      (handle_oauth2_publication service_type parts adapter tokenFetch pipe).updateCalled
        = true) := by
  simp only [handle_oauth2_publication, hdata]
  cases adapter with
  | none => simp
  | some ap =>
    cases tokenFetch with
    | error u => simp
    | ok tok =>
      by_cases herr : truthyOpt pipe.error = true
      · simp [herr]
      · rw [Bool.not_eq_true] at herr
        simp only [herr, Bool.false_eq_true, if_false]
        cases hres : pipe.result with
        | none => simp
        | some result =>
          by_cases hust : userSentTokens data = true
          · have : userSentTokens data = false → False := by simp [hust]
            simp [hust]
          · rw [Bool.not_eq_true] at hust
            simp [hust]

/-- Witness for C9: an email publication carrying both in-band tokens
does not rewrite the stored credential. -/
theorem C9_oauth2_token_frame_witness :
    (handle_oauth2_publication "email"
        [some "alice", some "bob", some "", some "", some "s", some "b", some "AT", some "RT"]
        (some "gmail") (.ok []) ⟨none, some ⟨[("refresh_token", "RT")], true, none⟩⟩).updateCalled
      = false
  ∧ (handle_oauth2_publication "email"
        [some "alice", some "bob", some "", some "", some "s", some "b", some "AT", some "RT"]
        (some "gmail") (.ok []) ⟨none, some ⟨[("refresh_token", "RT")], true, none⟩⟩).updateArg
      = none :=
  (C9_oauth2_token_frame "email"
    [some "alice", some "bob", some "", some "", some "s", some "b", some "AT", some "RT"]
    (some "gmail") (.ok []) ⟨none, some ⟨[("refresh_token", "RT")], true, none⟩⟩
    ⟨some "alice", some "AT", some "RT"⟩ rfl).1 rfl


/-! ## C10: `PublishContent` failure-notification dispatch -/

/-- The registry entry fields `PublishContent` routes on. -/
structure PlatformInfo where
  name : String
  protocol_type : String
  service_type : String
deriving DecidableEq, Repr

/-- The successful result of the vault `decrypt_payload` call. -/
structure DecryptOk where
  plaintext : List Byte
  country_code : String
deriving DecidableEq, Repr

/-- The inbound publish request: whether the `content` field is
(truthily) present, the base64-decoded payload bytes, and the
transport metadata `From` phone number. -/
structure PubRequest where
  contentPresent : Bool
  payload : List Byte
  metaFrom : String
deriving DecidableEq, Repr

/-- One notification handed to `dispatch_notifications` (the routing
facts of `handle_publication_notifications`; the localized message
text is outside the claims). -/
inductive Notif where
  | publicationEvent (platform : String) (status : String) (country : Option String)
  | sms (target : String) (platform : String) (status : String)
  | sentryEvent (platform : String) (status : String)
deriving DecidableEq, Repr

/-- `handle_publication_notifications` (`grpc_publisher_service.py`
lines 860-914): always a structured publication event, plus either a
real SMS to the request's `From` number or, in mock mode, an internal
diagnostic event. -/
def handle_publication_notifications (mock : Bool) (platform status : String)
    (country : Option String) (metaFrom : String) : List Notif :=
  [.publicationEvent platform status country] ++
    (if mock then [.sentryEvent platform status] else [.sms metaFrom platform status])

/-- Outcome of the extraction stage (lines 945-975). -/
inductive ExtStageRes where
  | parts (l : List (Option String))
  | errored (e : String)
  | nonePartsNoneError
  | raised (e : String)
deriving DecidableEq, Repr

/-- Collapse a v1/v2 extractor tuple to the string view the
orchestrator uses (tuple elements of these extractors are decoded
strings or `None`; other values cannot occur). -/
def tupleToStrs (l : List (Option PVal)) : List (Option String) :=
  l.map (fun o =>
    match o with
    | some (.str s) => some s
    | some _ => some ""
    | none => none)

/-- The extraction stage of `PublishContent`: v1/v2 payloads go to the
binary extractors selected by the decoded version tag (any other tag
leaves both the parts and the error unset); v0 payloads first decode
the plaintext as UTF-8 (an exception if invalid) and then split. -/
def extractStage (decoded : Dict) (service_type : String) (plaintext : List Byte) :
    ExtStageRes :=
  if (dlookup decoded "version").isSome then
    if dlookup decoded "version" = some (.str "v1") then
      match extract_content_v1 service_type plaintext with
      | .ok l => .parts (tupleToStrs l)
      | .error e => .errored e
    else if dlookup decoded "version" = some (.str "v2") then
      match extract_content_v2 service_type plaintext with
      | .ok l => .parts (tupleToStrs l)
      | .error e => .errored e
    else .nonePartsNoneError
  else
    match utf8DecodeStr plaintext with
    | .error e => .raised e
    | .ok s =>
      match extract_content_v0 service_type s with
      | .ok l => .parts l
      | .error e => .errored e

/-- The decoded `platform_shortcode` value as the string handed to the
registry lookup (always a decoded string or the `""` default). -/
def pvalStr : Option PVal → String
  | some (.str s) => s
  | some _ => ""
  | none => ""

/-- The outcome of the protocol handler a run dispatches to
(`handle_oauth2_publication` / `handle_pnba_publication` /
`handle_test_publication`): a direct response object (success flag),
an error value, a successful send (with an optional refresh alert), a
raised `NotImplementedError`, or any other raised exception. -/
inductive PubOutcome where
  | reply (success : Bool)
  | errorMsg (e : String)
  | sentOk (refresh_alert : Option String)
  | raiseNotImpl (msg : String)
  | raiseOther (msg : String)
deriving DecidableEq, Repr

/-- The terminal result of a `PublishContent` run. -/
inductive PubResult where
  | response (success : Bool) (msg : String)
  | invalidArg (msg : String)
  | unimplemented (msg : String)
  | internal
  | propagated (msg : String)
deriving DecidableEq, Repr

/-- Failure classification of a run result (any terminal outcome that
is not a success response). -/
def PubResult.isFailure : PubResult → Bool
  | .response success _ => !success
  | _ => true

/-- `PublishContent` (`grpc_publisher_service.py` lines 916-1055) as a
function of the request and the collaborator outcomes (`getAdapter`
the registry lookup by shortcode, `decrypt` the vault decryption,
`pubOutcome` the dispatched protocol handler's outcome), returning the
terminal result and the notifications dispatched.  Early-stage
failures (validation, decode, platform lookup, decryption, extraction)
and `NotImplementedError` return error responses directly; a handler
error or a post-extraction exception dispatches the failed-status
notifications before responding; a successful publication dispatches
the published-status notifications through the same helper. -/
def PublishContent (mock : Bool) (getAdapter : String → Option PlatformInfo)
    (decrypt : Except String DecryptOk) (pubOutcome : PubOutcome)
    (req : PubRequest) : PubResult × List Notif :=
  if req.contentPresent = false then
    (.invalidArg "Missing required field: content", [])
  else
    match decode_content_payload req.payload with
    | .error e => (.invalidArg ("Error Decoding Platform Payload: " ++ e), [])
    | .ok decoded =>
      let shortcode := pvalStr (dlookup decoded "platform_shortcode")
      match getAdapter shortcode with
      | none => (.invalidArg ("No platform found for shortcode '" ++ shortcode ++ "'."), [])
      | some pinfo =>
        match decrypt with
        | .error e => (.propagated e, [])
        | .ok dec =>
          let failedNotifs :=
            handle_publication_notifications mock pinfo.name "failed"
              (some dec.country_code) req.metaFrom
          match extractStage decoded pinfo.service_type dec.plaintext with
          | .errored e => (.invalidArg e, [])
          | .raised _ => (.internal, failedNotifs)
          | .nonePartsNoneError => (.internal, failedNotifs)
          | .parts l =>
            match l with
            | [] => (.internal, failedNotifs)
            | none :: _ => (.internal, failedNotifs)
            | some _ :: _ =>
              if pinfo.protocol_type = "oauth2" ∨ pinfo.protocol_type = "pnba"
                  ∨ pinfo.protocol_type = "event" then
                match pubOutcome with
                | .reply success => (.response success "", [])
                | .errorMsg e => (.invalidArg e, failedNotifs)
                | .sentOk _ =>
                  (.response true ("Successfully published " ++ pinfo.name ++ " message"),
                   handle_publication_notifications mock pinfo.name "published"
                     (some dec.country_code) req.metaFrom)
                | .raiseNotImpl msg => (.unimplemented msg, [])
                | .raiseOther _ => (.internal, failedNotifs)
              else (.internal, failedNotifs)

/-- C10 counterexample to the claim as stated: a run whose payload
fails to decode terminates in a failure outcome (an INVALID_ARGUMENT
error response) yet dispatches **no** notification at all - the
decode-failure return path never calls
`handle_publication_notifications` (`grpc_publisher_service.py` lines
921-923). -/
theorem C10_counterexample :
    PublishContent false (fun _ => none) (.error "e") (.reply true)
        ⟨true, [], "+237650000000"⟩
      = (.invalidArg ("Error Decoding Platform Payload: " ++ "IndexError"), [])
  ∧ (PubResult.invalidArg
      ("Error Decoding Platform Payload: " ++ "IndexError")).isFailure = true :=
  ⟨rfl, rfl⟩

/-- C10 (amended): failure notifications toward the declared source
number go out only for failures in the dispatched publication handler
(an adapter error outcome, or an unexpected exception after content
extraction); failures in validation, decoding, platform lookup,
decryption, and extraction, and `NotImplementedError`
(unsupported-platform) failures, return error responses with no
notification dispatched.  When a notification is dispatched (failure
or success), it goes through the same
`handle_publication_notifications` helper, targeting the metadata
`From` number (or the diagnostic event in mock mode). -/
theorem C10_failure_notifications (mock : Bool)
    (getAdapter : String → Option PlatformInfo)
    (decrypt : Except String DecryptOk) (pubOutcome : PubOutcome) (req : PubRequest) :
    (req.contentPresent = false →
      PublishContent mock getAdapter decrypt pubOutcome req
        = (.invalidArg "Missing required field: content", []))
  ∧ (∀ e, req.contentPresent = true → decode_content_payload req.payload = .error e →
      (PublishContent mock getAdapter decrypt pubOutcome req).2 = [])
  ∧ (∀ decoded, req.contentPresent = true →
      decode_content_payload req.payload = .ok decoded →
      getAdapter (pvalStr (dlookup decoded "platform_shortcode")) = none →
      (PublishContent mock getAdapter decrypt pubOutcome req).2 = [])
  ∧ (∀ decoded pinfo e, req.contentPresent = true →
      decode_content_payload req.payload = .ok decoded →
      getAdapter (pvalStr (dlookup decoded "platform_shortcode")) = some pinfo →
      decrypt = .error e →
      (PublishContent mock getAdapter decrypt pubOutcome req).2 = [])
  ∧ (∀ decoded pinfo dec e, req.contentPresent = true →
      decode_content_payload req.payload = .ok decoded →
      getAdapter (pvalStr (dlookup decoded "platform_shortcode")) = some pinfo →
      decrypt = .ok dec →
      extractStage decoded pinfo.service_type dec.plaintext = .errored e →
      (PublishContent mock getAdapter decrypt pubOutcome req).2 = [])
  ∧ (∀ decoded pinfo dec s0 rest msg, req.contentPresent = true →
      decode_content_payload req.payload = .ok decoded →
      getAdapter (pvalStr (dlookup decoded "platform_shortcode")) = some pinfo →
      decrypt = .ok dec →
      extractStage decoded pinfo.service_type dec.plaintext = .parts (some s0 :: rest) →
      (pinfo.protocol_type = "oauth2" ∨ pinfo.protocol_type = "pnba"
        ∨ pinfo.protocol_type = "event") →
      pubOutcome = .raiseNotImpl msg →
      PublishContent mock getAdapter decrypt pubOutcome req = (.unimplemented msg, []))
  ∧ (∀ decoded pinfo dec s0 rest e, req.contentPresent = true →
      decode_content_payload req.payload = .ok decoded →
      getAdapter (pvalStr (dlookup decoded "platform_shortcode")) = some pinfo →
      decrypt = .ok dec →
      extractStage decoded pinfo.service_type dec.plaintext = .parts (some s0 :: rest) →
      (pinfo.protocol_type = "oauth2" ∨ pinfo.protocol_type = "pnba"
        ∨ pinfo.protocol_type = "event") →
      pubOutcome = .errorMsg e →
      PublishContent mock getAdapter decrypt pubOutcome req
        = (.invalidArg e,
           handle_publication_notifications mock pinfo.name "failed"
             (some dec.country_code) req.metaFrom))
  ∧ (∀ decoded pinfo dec s0 rest msg, req.contentPresent = true →
      decode_content_payload req.payload = .ok decoded →
      getAdapter (pvalStr (dlookup decoded "platform_shortcode")) = some pinfo →
      decrypt = .ok dec →
      extractStage decoded pinfo.service_type dec.plaintext = .parts (some s0 :: rest) →
      (pinfo.protocol_type = "oauth2" ∨ pinfo.protocol_type = "pnba"
        ∨ pinfo.protocol_type = "event") →
      pubOutcome = .raiseOther msg →
      PublishContent mock getAdapter decrypt pubOutcome req
        = (.internal,
           handle_publication_notifications mock pinfo.name "failed"
             (some dec.country_code) req.metaFrom))
  ∧ (∀ decoded pinfo dec s0 rest alert, req.contentPresent = true →
      decode_content_payload req.payload = .ok decoded →
      getAdapter (pvalStr (dlookup decoded "platform_shortcode")) = some pinfo →
      decrypt = .ok dec →
      extractStage decoded pinfo.service_type dec.plaintext = .parts (some s0 :: rest) →
      (pinfo.protocol_type = "oauth2" ∨ pinfo.protocol_type = "pnba"
        ∨ pinfo.protocol_type = "event") →
      pubOutcome = .sentOk alert →
      PublishContent mock getAdapter decrypt pubOutcome req
        = (.response true ("Successfully published " ++ pinfo.name ++ " message"),
           handle_publication_notifications mock pinfo.name "published"
             (some dec.country_code) req.metaFrom))
  ∧ (∀ p st c target, handle_publication_notifications mock p st c target
        = [.publicationEvent p st c]
          ++ (if mock then [.sentryEvent p st] else [.sms target p st])) := by
  refine ⟨?_, ?_, ?_, ?_, ?_, ?_, ?_, ?_, ?_, ?_⟩
  · intro h
    simp only [PublishContent, h, eq_self_iff_true, if_true, ite_true]
  · intro e h hd
    simp only [PublishContent, h, hd, Bool.true_eq_false, if_false, ite_false]
  · intro decoded h hd hg
    simp only [PublishContent, h, hd, hg, Bool.true_eq_false, if_false, ite_false]
  · intro decoded pinfo e h hd hg hdec
    simp only [PublishContent, h, hd, hg, hdec, Bool.true_eq_false, if_false, ite_false]
  · intro decoded pinfo dec e h hd hg hdec hext
    simp only [PublishContent, h, hd, hg, hdec, hext, Bool.true_eq_false, if_false, ite_false]
  · intro decoded pinfo dec s0 rest msg h hd hg hdec hext hproto hout
    simp only [PublishContent, h, hd, hg, hdec, hext, hout, Bool.true_eq_false, if_false, ite_false]
    rw [if_pos hproto]
  · intro decoded pinfo dec s0 rest e h hd hg hdec hext hproto hout
    simp only [PublishContent, h, hd, hg, hdec, hext, hout, Bool.true_eq_false, if_false, ite_false]
    rw [if_pos hproto]
  · intro decoded pinfo dec s0 rest msg h hd hg hdec hext hproto hout
    simp only [PublishContent, h, hd, hg, hdec, hext, hout, Bool.true_eq_false, if_false, ite_false]
    rw [if_pos hproto]
  · intro decoded pinfo dec s0 rest alert h hd hg hdec hext hproto hout
    simp only [PublishContent, h, hd, hg, hdec, hext, hout, Bool.true_eq_false, if_false, ite_false]
    rw [if_pos hproto]
  · intro p st c target
    rfl

/-- Witness for C10 (amended): a v0 gmail run whose adapter send
fails dispatches the failed-status publication event and an SMS to the
request's `From` number. -/
theorem C10_failure_notifications_witness :
    PublishContent false
        (fun s => if s = "g" then some ⟨"gmail", "oauth2", "email"⟩ else none)
        (.ok ⟨[(97 : Byte), 58, 98, 58, 99, 58, 100, 58, 101, 58, 102], "CM"⟩)
        (.errorMsg "adapter failed")
        ⟨true, int32le 1 ++ [(103 : Byte)] ++ [(104 : Byte)] ++ [(9 : Byte)], "+237650000000"⟩
      = (.invalidArg "adapter failed",
         [.publicationEvent "gmail" "failed" (some "CM"),
          .sms "+237650000000" "gmail" "failed"]) :=
  (C10_failure_notifications false
    (fun s => if s = "g" then some ⟨"gmail", "oauth2", "email"⟩ else none)
    (.ok ⟨[(97 : Byte), 58, 98, 58, 99, 58, 100, 58, 101, 58, 102], "CM"⟩)
    (.errorMsg "adapter failed")
    ⟨true, int32le 1 ++ [(103 : Byte)] ++ [(104 : Byte)] ++ [(9 : Byte)], "+237650000000"⟩
    ).2.2.2.2.2.2.1
    [("len_ciphertext", .int 1), ("platform_shortcode", .str "g"),
     ("ciphertext", .bytes [(104 : Byte)]), ("device_id", .bytes [(9 : Byte)])]
    ⟨"gmail", "oauth2", "email"⟩
    ⟨[(97 : Byte), 58, 98, 58, 99, 58, 100, 58, 101, 58, 102], "CM"⟩
    "a" [some "b", some "c", some "d", some "e", some "f", none, none]
    "adapter failed" rfl rfl rfl rfl rfl (Or.inl rfl) rfl

end RelaySMS
